import Mathlib

/-!
Shallow embedding of `shopifyscraper/core.py` (`ShopifyScraperSkeleton`):
the resilient fetch layer consisting of pagination (`scrape_all_products`,
lines 92-111), per-page retry with exponential backoff
(`_get_page_with_retries`, lines 113-152), the request/proxy-substitution
loop (`_request`, lines 157-216), round-robin proxy selection
(`_get_next_proxy`, lines 221-236) and proxy health bookkeeping
(`_is_blacklisted` 244-253, `_record_proxy_failure` 255-262,
`add_proxy` 79-81, `remove_proxy` 83-87).

Modelling conventions:
- Python dicts keyed by proxy-key strings are modelled extensionally as
  functions `String -> Option v` (`Dict`); `dict.get`/assignment/`pop`
  become `dictGet`/`dictSet`/`dictPop`.
- Proxy endpoints are identified by their canonical string key
  (`_proxy_key`, lines 238-242, stringifies either form), so `ProxyType`
  is modelled as `String` and `_proxy_key` is the identity.
- `time.time()` is an explicit parameter `now : Int`; it is held fixed
  within one modelled call (none of the modelled functions sleeps inside
  a single `_request` call).  `time.sleep` calls are not executed; each
  modelled function instead records the durations it would sleep.
- The network is an oracle `Nat -> NetOutcome` indexed by the number of
  HTTP requests issued so far; `.ok r` is a received response (any status
  code), `.netExn` is a `requests.RequestException` (this also covers
  `requests.ProxyError`: `_request` lines 201-212 treat both identically).
- Product records are opaque (`Nat`); a page body either lacks the
  `products` key or carries a list of records.
- Exceptions are explicit results: `ProxyUnavailable` is the
  `ReqResult.unavailable` / `PageResult.unavailable` constructor and the
  `raised` flag of `ScrapeOut` (it is not a `requests.RequestException`,
  so lines 145-149 do not catch it and it escapes `scrape_all_products`).
  When `raised = true` the Python call returns nothing; the other fields
  of `ScrapeOut` are the loop data at the moment of the raise.
- `itertools.cycle` over `_raw_proxies` is an index `cursor` with modulo
  advancement; `add_proxy`/`remove_proxy` rebuild the cycle, resetting
  the cursor to the start of the list (lines 81, 85).
-/

namespace ShopifyScraper

/-- Python dict with string keys, modelled extensionally. -/
abbrev Dict (α : Type) : Type := String → Option α

/-- The empty dict. -/
def dictEmpty {α : Type} : Dict α := fun _ => none

/-- Python `d.get(k)`. -/
def dictGet {α : Type} (d : Dict α) (k : String) : Option α := d k

/-- Python `d[k] = v`. -/
def dictSet {α : Type} (d : Dict α) (k : String) (v : α) : Dict α :=
  fun q => if q = k then some v else d q

/-- Python `d.pop(k, None)`. -/
def dictPop {α : Type} (d : Dict α) (k : String) : Dict α :=
  fun q => if q = k then none else d q

/-- The mutable state of a `ShopifyScraperSkeleton` instance that the fetch
layer reads and writes: the configured proxy list, the rotation cursor of
the proxy cycle, the effective `rotate_proxies` flag, and the two health
dicts `_proxy_blacklist` and `_proxy_fail_counts` (lines 68-74). -/
structure ScraperState where
  rawProxies : List String
  cursor : Nat
  rotate : Bool
  blacklist : Dict Int
  failCounts : Dict Nat

/-- Constructor state, lines 68-74: `rotate_proxies and bool(proxies)`,
a fresh cycle over the proxies, and empty health dicts. -/
def init_state (proxies : List String) (rotate_proxies : Bool) : ScraperState :=
  { rawProxies := proxies
    cursor := 0
    rotate := rotate_proxies && !proxies.isEmpty
    blacklist := dictEmpty
    failCounts := dictEmpty }

/-- Immutable configuration consumed by the fetch layer (lines 49-56). -/
structure Cfg where
  baseUrl : String
  maxPages : Nat
  maxRetries : Nat
  backoffFactor : Rat
  delay : Rat
  cooldown : Int

/-- URL normalization in the constructor, lines 45-48: default to HTTPS and
force a trailing slash.  Python `startswith`/`endswith` are modelled on the
character sequence of the string. -/
def normalize_shop_url (u : String) : String :=
  let v := if "http".toList.isPrefixOf u.toList then u else "https://" ++ u
  if "/".toList.isSuffixOf v.toList then v else v ++ "/"

/-- Page URL, line 117: `urljoin(self.base_url, f"products.json?page={page}")`.
`urljoin` is modelled for the reachable bases (the constructor guarantees the
base ends with a slash, and a relative reference without scheme or authority
is then appended to it), where it is string concatenation. -/
def page_url (base : String) (page : Nat) : String :=
  base ++ "products.json?page=" ++ toString page

/-- `_is_blacklisted`, lines 244-253. Returns the boolean together with the
updated state: a falsy timestamp (absent or zero) means not blacklisted; an
entry whose cooldown has elapsed is lazily removed together with the fail
count; otherwise the proxy is blacklisted. -/
def is_blacklisted (cooldown now : Int) (s : ScraperState) (k : String) :
    Bool × ScraperState :=
  match dictGet s.blacklist k with
  | none => (false, s)
  | some t =>
    if t = 0 then (false, s)
    else if now - t > cooldown then
      (false, { s with blacklist := dictPop s.blacklist k
                       failCounts := dictPop s.failCounts k })
    else (true, s)

/-- `_record_proxy_failure`, lines 255-262: increment the fail count; once it
reaches 2, stamp the blacklist with the current time. -/
def record_proxy_failure (now : Int) (s : ScraperState) (k : String) : ScraperState :=
  let cnt := (dictGet s.failCounts k).getD 0 + 1
  if cnt ≥ 2 then
    { s with failCounts := dictSet s.failCounts k cnt
             blacklist := dictSet s.blacklist k now }
  else
    { s with failCounts := dictSet s.failCounts k cnt }

/-- The success-path health update of `_request`, line 199:
`self._proxy_fail_counts.pop(proxy_key, None)`. -/
def record_proxy_success (s : ScraperState) (k : String) : ScraperState :=
  { s with failCounts := dictPop s.failCounts k }

/-- The `for _ in range(len(self._raw_proxies))` loop of `_get_next_proxy`,
lines 227-236: advance the cycle and return the first non-blacklisted
endpoint, `none` once the whole cycle was scanned. -/
def get_next_proxy_loop (cooldown now : Int) : Nat → ScraperState → Option String × ScraperState
  | 0, s => (none, s)
  | n + 1, s =>
    let p := s.rawProxies.getD (s.cursor % s.rawProxies.length) ""
    let s1 := { s with cursor := s.cursor + 1 }
    let bl := is_blacklisted cooldown now s1 p
    if bl.1 then get_next_proxy_loop cooldown now n bl.2
    else (some p, bl.2)

/-- `_get_next_proxy`, lines 221-236: `none` when no proxies are configured;
the first configured proxy (without any blacklist check) when rotation is
disabled; otherwise the round-robin scan. -/
def get_next_proxy (cooldown now : Int) (s : ScraperState) : Option String × ScraperState :=
  if s.rawProxies.isEmpty then (none, s)
  else if s.rotate = false then (some (s.rawProxies.headD ""), s)
  else get_next_proxy_loop cooldown now s.rawProxies.length s

/-- Page body as seen by `_get_page_with_retries`: `resp.json()` either lacks
the `products` key or carries a (possibly empty) list of records. -/
inductive Body
  | noKey
  | products (l : List Nat)
  deriving DecidableEq

/-- A received HTTP response: status code and parsed body. -/
structure HResp where
  status : Nat
  body : Body
  deriving DecidableEq

/-- Outcome of one issued HTTP request: a response (any status code) or a
`requests.RequestException` (including `requests.ProxyError`). -/
inductive NetOutcome
  | ok (r : HResp)
  | netExn
  deriving DecidableEq

/-- Result of `_request`: a `requests.Response`, Python `None`, or a raised
`ProxyUnavailable`. -/
inductive ReqResult
  | resp (r : HResp)
  | noResp
  | unavailable
  deriving DecidableEq

/-- One HTTP request actually issued by `_request`: the URL, the proxy it was
routed through (`none` = direct, only possible with no proxies configured),
and the scraper state at the moment of issue. -/
structure ReqTraceEntry where
  url : String
  viaProxy : Option String
  atState : ScraperState

/-- Result of one `_request` call: the returned value, the proxy that
produced a returned response (if any), the final state, the next oracle
index, and the trace of issued requests. -/
structure ReqOut where
  result : ReqResult
  viaProxy : Option String
  state : ScraperState
  nextIdx : Nat
  trace : List ReqTraceEntry

/-- The proxy-substitution loop of `_request`, lines 176-216, with fuel
`max_try - proxies_tried`: select a proxy (raising `ProxyUnavailable` when
selection yields none), skip it if blacklisted, otherwise issue the request;
502/503/504 and transport exceptions record a proxy failure and move to the
next candidate, any other response clears the proxy fail count and is
returned. -/
def request_loop (cooldown now : Int) (oracle : Nat → NetOutcome) (url : String) :
    Nat → ScraperState → Nat → ReqOut
  | 0, s, idx => ⟨.noResp, none, s, idx, []⟩
  | n + 1, s, idx =>
    match get_next_proxy cooldown now s with
    | (none, s1) => ⟨.unavailable, none, s1, idx, []⟩
    | (some p, s1) =>
      let bl := is_blacklisted cooldown now s1 p
      if bl.1 then request_loop cooldown now oracle url n bl.2 idx
      else
        match oracle idx with
        | .ok r =>
          if r.status = 502 ∨ r.status = 503 ∨ r.status = 504 then
            let rest := request_loop cooldown now oracle url n
              (record_proxy_failure now bl.2 p) (idx + 1)
            { rest with trace := ⟨url, some p, bl.2⟩ :: rest.trace }
          else
            ⟨.resp r, some p, record_proxy_success bl.2 p, idx + 1, [⟨url, some p, bl.2⟩]⟩
        | .netExn =>
          let rest := request_loop cooldown now oracle url n
            (record_proxy_failure now bl.2 p) (idx + 1)
          { rest with trace := ⟨url, some p, bl.2⟩ :: rest.trace }

/-- `_request`, lines 157-216: a direct request when no proxies are
configured, otherwise the substitution loop with `max_try = max(1, len)`. -/
def request (cooldown now : Int) (oracle : Nat → NetOutcome) (url : String)
    (s : ScraperState) (idx : Nat) : ReqOut :=
  if s.rawProxies.isEmpty then
    match oracle idx with
    | .ok r => ⟨.resp r, none, s, idx + 1, [⟨url, none, s⟩]⟩
    | .netExn => ⟨.noResp, none, s, idx + 1, [⟨url, none, s⟩]⟩
  else request_loop cooldown now oracle url (max 1 s.rawProxies.length) s idx

/-- Result of `_get_page_with_retries`: the returned JSON data (identified
with its `products` list), Python `None`, or a propagating
`ProxyUnavailable`. -/
inductive PageResult
  | page (l : List Nat)
  | noPage
  | unavailable
  deriving DecidableEq

/-- Result of one `_get_page_with_retries` call: returned value, final
state, next oracle index, the backoff sleeps performed in order, and the
URLs of all HTTP requests issued on behalf of this page. -/
structure PageOut where
  result : PageResult
  state : ScraperState
  nextIdx : Nat
  backoffs : List Rat
  urls : List String

/-- The retry loop of `_get_page_with_retries`, lines 118-152, with fuel
`max_retries - attempt`; `attempt` is the number of attempts already made,
so the current attempt is `attempt + 1` and the backoff after it is
`backoff_factor * 2 ** (attempt + 1 - 1)`.  A `None` from `_request` is
re-raised as a `RequestException` (line 125) and caught by the retry
handler; `ProxyUnavailable` is not caught and propagates. -/
def get_page_loop (cfg : Cfg) (now : Int) (oracle : Nat → NetOutcome) (page : Nat) :
    Nat → Nat → ScraperState → Nat → PageOut
  | 0, _, s, idx => ⟨.noPage, s, idx, [], []⟩
  | left + 1, attempt, s, idx =>
    let k := attempt + 1
    let url := page_url cfg.baseUrl page
    let ro := request cfg.cooldown now oracle url s idx
    let urls := ro.trace.map (fun e => e.url)
    match ro.result with
    | .unavailable => ⟨.unavailable, ro.state, ro.nextIdx, [], urls⟩
    | .noResp =>
      let w := cfg.backoffFactor * 2 ^ (k - 1)
      let rest := get_page_loop cfg now oracle page left k ro.state ro.nextIdx
      ⟨rest.result, rest.state, rest.nextIdx, w :: rest.backoffs, urls ++ rest.urls⟩
    | .resp r =>
      if r.status = 200 then
        match r.body with
        | .noKey => ⟨.noPage, ro.state, ro.nextIdx, [], urls⟩
        | .products l => ⟨.page l, ro.state, ro.nextIdx, [], urls⟩
      else if r.status = 429 then
        let w := cfg.backoffFactor * 2 ^ (k - 1)
        let rest := get_page_loop cfg now oracle page left k ro.state ro.nextIdx
        ⟨rest.result, rest.state, rest.nextIdx, w :: rest.backoffs, urls ++ rest.urls⟩
      else if 500 ≤ r.status ∧ r.status < 600 then
        let w := cfg.backoffFactor * 2 ^ (k - 1)
        let rest := get_page_loop cfg now oracle page left k ro.state ro.nextIdx
        ⟨rest.result, rest.state, rest.nextIdx, w :: rest.backoffs, urls ++ rest.urls⟩
      else ⟨.noPage, ro.state, ro.nextIdx, [], urls⟩

/-- `_get_page_with_retries`, lines 113-152: the retry loop starting at
`attempt = 0`. -/
def get_page_with_retries (cfg : Cfg) (now : Int) (oracle : Nat → NetOutcome)
    (page : Nat) (s : ScraperState) (idx : Nat) : PageOut :=
  get_page_loop cfg now oracle page cfg.maxRetries 0 s idx

/-- Result of one `scrape_all_products` call: the accumulated records, the
number of `_get_page_with_retries` calls issued, the politeness sleeps
performed in order, whether `ProxyUnavailable` escaped, the final state and
next oracle index. -/
structure ScrapeOut where
  records : List Nat
  fetches : Nat
  politeness : List Rat
  raised : Bool
  state : ScraperState
  nextIdx : Nat

/-- The pagination loop of `scrape_all_products`, lines 97-108, with fuel
`max_pages - page + 1`: fetch the page; stop on `None` or a falsy
`products` value; otherwise accumulate, advance the page and sleep
`delay`. -/
def scrape_loop (cfg : Cfg) (now : Int) (oracle : Nat → NetOutcome) :
    Nat → Nat → ScraperState → Nat → ScrapeOut
  | 0, _, s, idx => ⟨[], 0, [], false, s, idx⟩
  | fuel + 1, page, s, idx =>
    let po := get_page_with_retries cfg now oracle page s idx
    match po.result with
    | .unavailable => ⟨[], 1, [], true, po.state, po.nextIdx⟩
    | .noPage => ⟨[], 1, [], false, po.state, po.nextIdx⟩
    | .page l =>
      if l.isEmpty then ⟨[], 1, [], false, po.state, po.nextIdx⟩
      else
        let rest := scrape_loop cfg now oracle fuel (page + 1) po.state po.nextIdx
        ⟨l ++ rest.records, rest.fetches + 1, cfg.delay :: rest.politeness,
          rest.raised, rest.state, rest.nextIdx⟩

/-- `scrape_all_products`, lines 92-111: pages start at 1, so the loop
`while page <= max_pages` admits `max_pages` iterations. -/
def scrape_all_products (cfg : Cfg) (now : Int) (oracle : Nat → NetOutcome)
    (s : ScraperState) : ScrapeOut :=
  scrape_loop cfg now oracle cfg.maxPages 1 s 0

/-- `add_proxy`, lines 79-81: append to the configured list and rebuild the
cycle (resetting the rotation cursor).  The health dicts are not touched. -/
def add_proxy (s : ScraperState) (p : String) : ScraperState :=
  { s with rawProxies := s.rawProxies ++ [p]
           cursor := 0 }

/-- `remove_proxy`, lines 83-87: drop every occurrence of the endpoint,
rebuild the cycle, and pop its blacklist entry and fail count. -/
def remove_proxy (s : ScraperState) (p : String) : ScraperState :=
  { s with rawProxies := s.rawProxies.filter (fun q => q ≠ p)
           cursor := 0
           blacklist := dictPop s.blacklist p
           failCounts := dictPop s.failCounts p }

/-- The page-level fatal classifications of `_get_page_with_retries`:
HTTP 200 whose body lacks the `products` key (lines 128-130), or an
unexpected status code (neither 200 nor 429 nor 5xx, lines 142-144). -/
def fatalResponse (r : HResp) : Prop :=
  (r.status = 200 ∧ r.body = .noKey) ∨
  (r.status ≠ 200 ∧ r.status ≠ 429 ∧ ¬(500 ≤ r.status ∧ r.status < 600))

/-- The retryable classifications of `_get_page_with_retries`: a transport
exception (or a `None` from `_request`), HTTP 429, or HTTP 5xx. -/
def retryableOutcome : NetOutcome → Prop
  | .netExn => True
  | .ok r => r.status = 429 ∨ (500 ≤ r.status ∧ r.status < 600)

/-! ### Basic lemmas about the dict model and the health primitives -/

theorem dictGet_dictSet_self {α : Type} (d : Dict α) (k : String) (v : α) :
    dictGet (dictSet d k v) k = some v := by
  simp [dictGet, dictSet]

theorem dictGet_dictSet_ne {α : Type} (d : Dict α) (k q : String) (v : α)
    (h : q ≠ k) : dictGet (dictSet d k v) q = dictGet d q := by
  simp [dictGet, dictSet, h]

theorem dictGet_dictPop_self {α : Type} (d : Dict α) (k : String) :
    dictGet (dictPop d k) k = none := by
  simp [dictGet, dictPop]

theorem dictGet_dictPop_ne {α : Type} (d : Dict α) (k q : String)
    (h : q ≠ k) : dictGet (dictPop d k) q = dictGet d q := by
  simp [dictGet, dictPop, h]

/-- The boolean value of `_is_blacklisted` depends only on the blacklist
dict (helper for congruence reasoning). -/
def blacklistedNow (cooldown now : Int) (b : Dict Int) (k : String) : Bool :=
  match dictGet b k with
  | none => false
  | some t => if t = 0 then false else if now - t > cooldown then false else true

theorem is_blacklisted_fst (cooldown now : Int) (s : ScraperState) (k : String) :
    (is_blacklisted cooldown now s k).1 = blacklistedNow cooldown now s.blacklist k := by
  unfold is_blacklisted blacklistedNow
  rcases h : dictGet s.blacklist k with _ | t
  · rfl
  · by_cases h0 : t = 0 <;> by_cases h1 : now - t > cooldown <;> simp [h0, h1]

theorem is_blacklisted_true_snd (cooldown now : Int) (s : ScraperState) (k : String)
    (h : (is_blacklisted cooldown now s k).1 = true) :
    (is_blacklisted cooldown now s k).2 = s := by
  unfold is_blacklisted at h ⊢
  rcases hb : dictGet s.blacklist k with _ | t
  · rfl
  · rw [hb] at h
    by_cases h0 : t = 0
    · simp [h0] at h
    · by_cases h1 : now - t > cooldown <;> simp [h0, h1] at h ⊢

theorem is_blacklisted_snd_rawProxies (cooldown now : Int) (s : ScraperState) (k : String) :
    (is_blacklisted cooldown now s k).2.rawProxies = s.rawProxies := by
  unfold is_blacklisted
  rcases hb : dictGet s.blacklist k with _ | t
  · rfl
  · by_cases h0 : t = 0 <;> by_cases h1 : now - t > cooldown <;> simp [h0, h1]

theorem is_blacklisted_snd_rotate (cooldown now : Int) (s : ScraperState) (k : String) :
    (is_blacklisted cooldown now s k).2.rotate = s.rotate := by
  unfold is_blacklisted
  rcases hb : dictGet s.blacklist k with _ | t
  · rfl
  · by_cases h0 : t = 0 <;> by_cases h1 : now - t > cooldown <;> simp [h0, h1]

theorem is_blacklisted_eq_none (cooldown now : Int) (s : ScraperState) (k : String)
    (h : dictGet s.blacklist k = none) :
    is_blacklisted cooldown now s k = (false, s) := by
  unfold is_blacklisted; rw [h]

theorem is_blacklisted_eq_zero (cooldown now : Int) (s : ScraperState) (k : String)
    (h : dictGet s.blacklist k = some 0) :
    is_blacklisted cooldown now s k = (false, s) := by
  unfold is_blacklisted; rw [h]; simp

theorem is_blacklisted_eq_expired (cooldown now : Int) (s : ScraperState) (k : String)
    (t : Int) (h : dictGet s.blacklist k = some t) (h0 : t ≠ 0)
    (h1 : now - t > cooldown) :
    is_blacklisted cooldown now s k
      = (false, { s with blacklist := dictPop s.blacklist k
                         failCounts := dictPop s.failCounts k }) := by
  unfold is_blacklisted; rw [h]; simp [h0, h1]

theorem is_blacklisted_eq_active (cooldown now : Int) (s : ScraperState) (k : String)
    (t : Int) (h : dictGet s.blacklist k = some t) (h0 : t ≠ 0)
    (h1 : ¬ now - t > cooldown) :
    is_blacklisted cooldown now s k = (true, s) := by
  unfold is_blacklisted; rw [h]; simp [h0, h1]

theorem is_blacklisted_false_again (cooldown now : Int) (s : ScraperState) (k : String)
    (h : (is_blacklisted cooldown now s k).1 = false) :
    (is_blacklisted cooldown now (is_blacklisted cooldown now s k).2 k).1 = false := by
  rcases hb : dictGet s.blacklist k with _ | t
  · rw [is_blacklisted_eq_none cooldown now s k hb]
    rw [is_blacklisted_eq_none cooldown now s k hb]
  · by_cases h0 : t = 0
    · subst h0
      rw [is_blacklisted_eq_zero cooldown now s k hb]
      rw [is_blacklisted_eq_zero cooldown now s k hb]
    · by_cases h1 : now - t > cooldown
      · rw [is_blacklisted_eq_expired cooldown now s k t hb h0 h1]
        rw [is_blacklisted_eq_none]
        exact dictGet_dictPop_self s.blacklist k
      · rw [is_blacklisted_eq_active cooldown now s k t hb h0 h1] at h
        simp at h

theorem record_proxy_failure_rawProxies (now : Int) (s : ScraperState) (k : String) :
    (record_proxy_failure now s k).rawProxies = s.rawProxies := by
  unfold record_proxy_failure
  by_cases h : (dictGet s.failCounts k).getD 0 + 1 ≥ 2 <;> simp [h]

theorem record_proxy_failure_rotate (now : Int) (s : ScraperState) (k : String) :
    (record_proxy_failure now s k).rotate = s.rotate := by
  unfold record_proxy_failure
  by_cases h : (dictGet s.failCounts k).getD 0 + 1 ≥ 2 <;> simp [h]

theorem record_proxy_success_rawProxies (s : ScraperState) (k : String) :
    (record_proxy_success s k).rawProxies = s.rawProxies := rfl

theorem record_proxy_success_rotate (s : ScraperState) (k : String) :
    (record_proxy_success s k).rotate = s.rotate := rfl

/-! ### Claim C4: failure recording, threshold 2, cooldown blacklisting -/

/-- C4: recording a failure increments the endpoint's failure count; when
the count reaches the threshold of 2 the proxy becomes blacklisted (entry
stamped `now`, hence blacklisted at every instant within
`cooldown_duration` of `now`) while the failure count is left in place; and
from any state in which the count is already at least 2 (as it is after a
blacklisting, whose cooldown has since elapsed), a single further failure
immediately re-stamps the blacklist entry, so two more failures are not
required. -/
theorem claim_C4 (s : ScraperState) (k : String) (now cooldown : Int) :
    (dictGet (record_proxy_failure now s k).failCounts k
        = some ((dictGet s.failCounts k).getD 0 + 1))
    ∧ ((dictGet s.failCounts k).getD 0 + 1 ≥ 2 →
        dictGet (record_proxy_failure now s k).blacklist k = some now
        ∧ (0 < now → ∀ t2 : Int, t2 - now ≤ cooldown →
            (is_blacklisted cooldown t2 (record_proxy_failure now s k) k).1 = true))
    ∧ (∀ c t, dictGet s.failCounts k = some c → 2 ≤ c →
        dictGet s.blacklist k = some t → now - t > cooldown →
        dictGet (record_proxy_failure now s k).blacklist k = some now
        ∧ dictGet (record_proxy_failure now s k).failCounts k = some (c + 1)) := by
  refine ⟨?_, ?_, ?_⟩
  · unfold record_proxy_failure
    by_cases h : (dictGet s.failCounts k).getD 0 + 1 ≥ 2 <;>
      simp [h, dictGet_dictSet_self]
  · intro h
    constructor
    · unfold record_proxy_failure
      simp only [h, if_pos]
      exact dictGet_dictSet_self s.blacklist k now
    · intro hpos t2 ht2
      have hb : dictGet (record_proxy_failure now s k).blacklist k = some now := by
        unfold record_proxy_failure
        simp only [h, if_pos]
        exact dictGet_dictSet_self s.blacklist k now
      rw [is_blacklisted_eq_active cooldown t2 _ k now hb (by omega) (by omega)]
  · intro c t hc h2 _ _
    have h : (dictGet s.failCounts k).getD 0 + 1 ≥ 2 := by rw [hc]; simp; omega
    constructor
    · unfold record_proxy_failure
      simp only [h, if_pos]
      exact dictGet_dictSet_self s.blacklist k now
    · unfold record_proxy_failure
      simp only [h, if_pos]
      rw [dictGet_dictSet_self, hc]
      simp

/-- Concrete instantiation of `claim_C4`: an endpoint with one prior failure
is blacklisted by its second failure at time 50 and is still blacklisted at
time 60 (cooldown 100); an endpoint whose count sits at 2 after an elapsed
cooldown is re-blacklisted by one further failure. -/
theorem claim_C4_witness :
    ((dictGet (dictSet (dictEmpty (α := Nat)) "p" 1) "p").getD 0 + 1 ≥ 2)
    ∧ dictGet (record_proxy_failure 50
        ⟨["p"], 0, true, dictEmpty, dictSet dictEmpty "p" 1⟩ "p").blacklist "p" = some 50
    ∧ (is_blacklisted 100 60 (record_proxy_failure 50
        ⟨["p"], 0, true, dictEmpty, dictSet dictEmpty "p" 1⟩ "p") "p").1 = true
    ∧ dictGet (record_proxy_failure 500
        ⟨["p"], 0, true, dictSet dictEmpty "p" 50, dictSet dictEmpty "p" 2⟩ "p").blacklist "p"
        = some 500
    ∧ dictGet (record_proxy_failure 500
        ⟨["p"], 0, true, dictSet dictEmpty "p" 50, dictSet dictEmpty "p" 2⟩ "p").failCounts "p"
        = some 3 := by
  refine ⟨by decide, ?_, ?_, ?_, ?_⟩
  · exact ((claim_C4 ⟨["p"], 0, true, dictEmpty, dictSet dictEmpty "p" 1⟩
      "p" 50 100).2.1 (by decide)).1
  · exact ((claim_C4 ⟨["p"], 0, true, dictEmpty, dictSet dictEmpty "p" 1⟩
      "p" 50 100).2.1 (by decide)).2 (by decide) 60 (by decide)
  · exact ((claim_C4 ⟨["p"], 0, true, dictSet dictEmpty "p" 50, dictSet dictEmpty "p" 2⟩
      "p" 500 100).2.2 2 50 (by decide) (by decide) (by decide) (by decide)).1
  · exact ((claim_C4 ⟨["p"], 0, true, dictSet dictEmpty "p" 50, dictSet dictEmpty "p" 2⟩
      "p" 500 100).2.2 2 50 (by decide) (by decide) (by decide) (by decide)).2

/-! ### Claim C10: frame conditions of add_proxy and remove_proxy -/

/-- C10: `add_proxy` changes only the configured endpoint list and the
rotation cursor — the blacklist and failure-count dicts are untouched, so a
re-added endpoint keeps exactly the blacklist status its key already had —
whereas `remove_proxy` additionally deletes the removed endpoint's
blacklist entry and failure count (and nothing of any other key). -/
theorem claim_C10 (s : ScraperState) (p : String) :
    ((add_proxy s p).rawProxies = s.rawProxies ++ [p]
      ∧ (add_proxy s p).cursor = 0
      ∧ (add_proxy s p).rotate = s.rotate
      ∧ (add_proxy s p).blacklist = s.blacklist
      ∧ (add_proxy s p).failCounts = s.failCounts)
    ∧ (∀ cooldown now k,
        (is_blacklisted cooldown now (add_proxy s p) k).1
          = (is_blacklisted cooldown now s k).1)
    ∧ ((remove_proxy s p).rawProxies = s.rawProxies.filter (fun q => q ≠ p)
      ∧ (remove_proxy s p).cursor = 0
      ∧ (remove_proxy s p).rotate = s.rotate
      ∧ dictGet (remove_proxy s p).blacklist p = none
      ∧ dictGet (remove_proxy s p).failCounts p = none
      ∧ ∀ k, k ≠ p →
          dictGet (remove_proxy s p).blacklist k = dictGet s.blacklist k
          ∧ dictGet (remove_proxy s p).failCounts k = dictGet s.failCounts k) := by
  refine ⟨⟨rfl, rfl, rfl, rfl, rfl⟩, ?_, rfl, rfl, rfl, ?_, ?_, ?_⟩
  · intro cooldown now k
    rw [is_blacklisted_fst, is_blacklisted_fst]
    rfl
  · exact dictGet_dictPop_self s.blacklist p
  · exact dictGet_dictPop_self s.failCounts p
  · intro k hk
    exact ⟨dictGet_dictPop_ne s.blacklist p k hk, dictGet_dictPop_ne s.failCounts p k hk⟩

/-- Concrete instantiation of `claim_C10`: re-adding a currently blacklisted
endpoint leaves it blacklisted, and removing it deletes its health record
while another key's record survives. -/
theorem claim_C10_witness :
    (is_blacklisted 100 10
        (add_proxy ⟨["a"], 3, true, dictSet dictEmpty "a" 5, dictSet dictEmpty "a" 2⟩ "a")
        "a").1
      = (is_blacklisted 100 10
          ⟨["a"], 3, true, dictSet dictEmpty "a" 5, dictSet dictEmpty "a" 2⟩ "a").1
    ∧ dictGet (remove_proxy
        ⟨["a", "b"], 3, true, dictSet dictEmpty "a" 5, dictSet dictEmpty "a" 2⟩
        "a").blacklist "a" = none
    ∧ dictGet (remove_proxy
        ⟨["a", "b"], 3, true, dictSet (dictSet dictEmpty "b" 9) "a" 5, dictEmpty⟩
        "a").blacklist "b"
      = dictGet (dictSet (dictSet (dictEmpty (α := Int)) "b" 9) "a" 5) "b" := by
  refine ⟨?_, ?_, ?_⟩
  · exact (claim_C10 ⟨["a"], 3, true, dictSet dictEmpty "a" 5, dictSet dictEmpty "a" 2⟩
      "a").2.1 100 10 "a"
  · exact (claim_C10 ⟨["a", "b"], 3, true, dictSet dictEmpty "a" 5, dictSet dictEmpty "a" 2⟩
      "a").2.2.2.2.2.1
  · exact ((claim_C10 ⟨["a", "b"], 3, true, dictSet (dictSet dictEmpty "b" 9) "a" 5, dictEmpty⟩
      "a").2.2.2.2.2.2.2 "b" (by decide)).1

/-! ### Lemmas about proxy selection (the round-robin scan) -/

theorem get_next_proxy_loop_snd_fields (cooldown now : Int) :
    ∀ (n : Nat) (s : ScraperState),
      (get_next_proxy_loop cooldown now n s).2.rawProxies = s.rawProxies
      ∧ (get_next_proxy_loop cooldown now n s).2.rotate = s.rotate
  | 0, s => ⟨rfl, rfl⟩
  | n + 1, s => by
    unfold get_next_proxy_loop
    set p := s.rawProxies.getD (s.cursor % s.rawProxies.length) "" with hp
    set s1 : ScraperState := { s with cursor := s.cursor + 1 } with hs1
    by_cases hbl : (is_blacklisted cooldown now s1 p).1 = true
    · simp only [hbl, if_true]
      have ih := get_next_proxy_loop_snd_fields cooldown now n (is_blacklisted cooldown now s1 p).2
      have h1 := is_blacklisted_snd_rawProxies cooldown now s1 p
      have h2 := is_blacklisted_snd_rotate cooldown now s1 p
      exact ⟨by rw [ih.1, h1], by rw [ih.2, h2]⟩
    · simp only [Bool.not_eq_true] at hbl
      simp only [hbl, Bool.false_eq_true, if_false]
      exact ⟨is_blacklisted_snd_rawProxies cooldown now s1 p,
        is_blacklisted_snd_rotate cooldown now s1 p⟩

/-- If the round-robin scan with fuel `n` exhausts the cycle, every scanned
slot (starting from the cursor) was blacklisted, and the scan only advanced
the cursor. -/
theorem get_next_proxy_loop_none (cooldown now : Int) :
    ∀ (n : Nat) (s s2 : ScraperState),
      get_next_proxy_loop cooldown now n s = (none, s2) →
      s2.blacklist = s.blacklist ∧ s2.failCounts = s.failCounts
      ∧ s2.rawProxies = s.rawProxies ∧ s2.rotate = s.rotate
      ∧ ∀ j, j < n → blacklistedNow cooldown now s.blacklist
          (s.rawProxies.getD ((s.cursor + j) % s.rawProxies.length) "") = true
  | 0, s, s2, h => by
    unfold get_next_proxy_loop at h
    have hs : s2 = s := ((Prod.mk.injEq _ _ _ _).mp h).2.symm
    subst hs
    exact ⟨rfl, rfl, rfl, rfl, fun j hj => absurd hj (Nat.not_lt_zero j)⟩
  | n + 1, s, s2, h => by
    unfold get_next_proxy_loop at h
    set p := s.rawProxies.getD (s.cursor % s.rawProxies.length) "" with hp
    set s1 : ScraperState := { s with cursor := s.cursor + 1 } with hs1
    by_cases hbl : (is_blacklisted cooldown now s1 p).1 = true
    · rw [if_pos hbl, is_blacklisted_true_snd cooldown now s1 p hbl] at h
      have ih := get_next_proxy_loop_none cooldown now n s1 s2 h
      refine ⟨ih.1, ih.2.1, ih.2.2.1, ih.2.2.2.1, ?_⟩
      intro j hj
      rcases j with _ | j
      · have hfst := is_blacklisted_fst cooldown now s1 p
        rw [hbl] at hfst
        rw [Nat.add_zero]
        exact hfst.symm
      · have hj2 : j < n := by omega
        have := ih.2.2.2.2 j hj2
        have harith : s1.cursor + j = s.cursor + (j + 1) := by
          simp only [hs1]; omega
        rw [harith] at this
        exact this
    · simp only [Bool.not_eq_true] at hbl
      rw [if_neg (by rw [hbl]; exact Bool.false_ne_true)] at h
      exact absurd (Prod.mk.inj h).1 (by simp)

/-- The `n` consecutive cycle positions starting anywhere cover every index
of a list of length `n`. -/
theorem cycle_cover (len c i : Nat) (hlen : 0 < len) (hi : i < len) :
    ∃ j, j < len ∧ (c + j) % len = i := by
  refine ⟨(i + len - c % len) % len, Nat.mod_lt _ hlen, ?_⟩
  have hc : c % len < len := Nat.mod_lt c hlen
  have hle : c % len ≤ i + len := by omega
  calc (c + (i + len - c % len) % len) % len
      = (c % len + (i + len - c % len) % len) % len := by
        rw [Nat.mod_add_mod]
    _ = (c % len + (i + len - c % len)) % len := by
        rw [Nat.add_mod_mod]
    _ = (i + len) % len := by rw [Nat.add_sub_cancel' hle]
    _ = i % len := Nat.add_mod_right i len
    _ = i := Nat.mod_eq_of_lt hi

/-- If every configured endpoint is blacklisted, the round-robin scan never
finds a candidate. -/
theorem get_next_proxy_loop_all_blacklisted (cooldown now : Int) :
    ∀ (n : Nat) (s : ScraperState), s.rawProxies ≠ [] →
      (∀ p, p ∈ s.rawProxies → blacklistedNow cooldown now s.blacklist p = true) →
      (get_next_proxy_loop cooldown now n s).1 = none
  | 0, s, _, _ => rfl
  | n + 1, s, hne, hall => by
    unfold get_next_proxy_loop
    set p := s.rawProxies.getD (s.cursor % s.rawProxies.length) "" with hp
    set s1 : ScraperState := { s with cursor := s.cursor + 1 } with hs1
    have hlen : 0 < s.rawProxies.length := List.length_pos.mpr hne
    have hmem : p ∈ s.rawProxies := by
      rw [hp, List.getD_eq_getElem s.rawProxies "" (Nat.mod_lt _ hlen)]
      exact List.getElem_mem _
    have hbl : (is_blacklisted cooldown now s1 p).1 = true := by
      rw [is_blacklisted_fst]
      exact hall p hmem
    rw [if_pos hbl, is_blacklisted_true_snd cooldown now s1 p hbl]
    exact get_next_proxy_loop_all_blacklisted cooldown now n s1 hne hall

theorem get_next_proxy_snd_fields (cooldown now : Int) (s : ScraperState) :
    (get_next_proxy cooldown now s).2.rawProxies = s.rawProxies
    ∧ (get_next_proxy cooldown now s).2.rotate = s.rotate := by
  unfold get_next_proxy
  cases h1 : s.rawProxies.isEmpty
  · cases h2 : s.rotate
    · simp [h2]
    · simp only [Bool.false_eq_true, if_false]
      have h := get_next_proxy_loop_snd_fields cooldown now s.rawProxies.length s
      constructor
      · simpa using h.1
      · simp only [if_neg (by decide : ¬ (true = false))]
        rw [h.2, h2]
  · simp

/-- In rotation mode, a failed selection means every configured endpoint is
blacklisted, and selection only advanced the cursor. -/
theorem get_next_proxy_none_rotate (cooldown now : Int) (s s2 : ScraperState)
    (hne : s.rawProxies ≠ []) (hrot : s.rotate = true)
    (hg : get_next_proxy cooldown now s = (none, s2)) :
    s2.blacklist = s.blacklist ∧ s2.rawProxies = s.rawProxies
    ∧ (∀ p, p ∈ s.rawProxies → blacklistedNow cooldown now s.blacklist p = true) := by
  have h1 : s.rawProxies.isEmpty = false := by
    simp [List.isEmpty_iff, hne]
  unfold get_next_proxy at hg
  rw [h1, hrot] at hg
  rw [if_neg (by decide : ¬ (false = true)),
    if_neg (by decide : ¬ (true = false))] at hg
  have hloop := get_next_proxy_loop_none cooldown now s.rawProxies.length s s2 hg
  refine ⟨hloop.1, hloop.2.2.1, ?_⟩
  intro p hp
  have hlen : 0 < s.rawProxies.length := List.length_pos.mpr hne
  obtain ⟨i, hi, hip⟩ := List.mem_iff_getElem.mp hp
  obtain ⟨j, hj, hji⟩ := cycle_cover s.rawProxies.length s.cursor i hlen hi
  have hbl := hloop.2.2.2.2 j hj
  rw [hji] at hbl
  rw [List.getD_eq_getElem s.rawProxies "" (by omega), hip] at hbl
  exact hbl

/-- In rotation mode, if every configured endpoint is blacklisted,
selection fails. -/
theorem get_next_proxy_all_blacklisted (cooldown now : Int) (s : ScraperState)
    (hne : s.rawProxies ≠ []) (hrot : s.rotate = true)
    (hall : ∀ p, p ∈ s.rawProxies → blacklistedNow cooldown now s.blacklist p = true) :
    (get_next_proxy cooldown now s).1 = none := by
  have h1 : s.rawProxies.isEmpty = false := by
    simp [List.isEmpty_iff, hne]
  unfold get_next_proxy
  rw [h1, hrot]
  rw [if_neg (by decide : ¬ (false = true)),
    if_neg (by decide : ¬ (true = false))]
  exact get_next_proxy_loop_all_blacklisted cooldown now s.rawProxies.length s hne hall

theorem get_next_proxy_nonrotate (cooldown now : Int) (s : ScraperState)
    (hne : s.rawProxies ≠ []) (hrot : s.rotate = false) :
    get_next_proxy cooldown now s = (some (s.rawProxies.headD ""), s) := by
  have h1 : s.rawProxies.isEmpty = false := by
    simp [List.isEmpty_iff, hne]
  unfold get_next_proxy
  rw [h1, hrot]
  rw [if_neg (by decide : ¬ (false = true)), if_pos rfl]

/-! ### Lemmas about the request / proxy-substitution loop -/

theorem request_loop_state_fields (cooldown now : Int) (oracle : Nat → NetOutcome)
    (url : String) :
    ∀ (n : Nat) (s : ScraperState) (idx : Nat),
      (request_loop cooldown now oracle url n s idx).state.rawProxies = s.rawProxies
      ∧ (request_loop cooldown now oracle url n s idx).state.rotate = s.rotate
  | 0, s, idx => ⟨rfl, rfl⟩
  | n + 1, s, idx => by
    unfold request_loop
    rcases hg : get_next_proxy cooldown now s with ⟨o, s1⟩
    have hs1 : s1.rawProxies = s.rawProxies ∧ s1.rotate = s.rotate := by
      have h := get_next_proxy_snd_fields cooldown now s
      rw [hg] at h
      exact h
    cases o with
    | none =>
      simp only [hg]
      exact hs1
    | some p =>
      simp only [hg]
      by_cases hbl : (is_blacklisted cooldown now s1 p).1 = true
      · rw [if_pos hbl]
        have ih := request_loop_state_fields cooldown now oracle url n
          (is_blacklisted cooldown now s1 p).2 idx
        exact ⟨by rw [ih.1, is_blacklisted_snd_rawProxies, hs1.1],
          by rw [ih.2, is_blacklisted_snd_rotate, hs1.2]⟩
      · rw [if_neg hbl]
        rcases ho : oracle idx with r | _
        · simp only [ho]
          by_cases h5 : (r.status = 502 ∨ r.status = 503 ∨ r.status = 504)
          · rw [if_pos h5]
            have ih := request_loop_state_fields cooldown now oracle url n
              (record_proxy_failure now (is_blacklisted cooldown now s1 p).2 p) (idx + 1)
            exact ⟨by rw [ih.1, record_proxy_failure_rawProxies,
                is_blacklisted_snd_rawProxies, hs1.1],
              by rw [ih.2, record_proxy_failure_rotate,
                is_blacklisted_snd_rotate, hs1.2]⟩
          · rw [if_neg h5]
            exact ⟨by rw [record_proxy_success_rawProxies,
                is_blacklisted_snd_rawProxies, hs1.1],
              by rw [record_proxy_success_rotate,
                is_blacklisted_snd_rotate, hs1.2]⟩
        · simp only [ho]
          have ih := request_loop_state_fields cooldown now oracle url n
            (record_proxy_failure now (is_blacklisted cooldown now s1 p).2 p) (idx + 1)
          exact ⟨by rw [ih.1, record_proxy_failure_rawProxies,
              is_blacklisted_snd_rawProxies, hs1.1],
            by rw [ih.2, record_proxy_failure_rotate,
              is_blacklisted_snd_rotate, hs1.2]⟩

/-- Every request issued by the substitution loop goes through a proxy that
was not blacklisted in the state it was issued from. -/
theorem request_loop_trace (cooldown now : Int) (oracle : Nat → NetOutcome)
    (url : String) :
    ∀ (n : Nat) (s : ScraperState) (idx : Nat),
      ∀ e ∈ (request_loop cooldown now oracle url n s idx).trace,
        (∃ q, e.viaProxy = some q)
        ∧ ∀ q, e.viaProxy = some q →
            (is_blacklisted cooldown now e.atState q).1 = false
  | 0, s, idx => by
    intro e he
    simp only [request_loop] at he
    exact absurd he (List.not_mem_nil e)
  | n + 1, s, idx => by
    intro e he
    rw [request_loop] at he
    rcases hg : get_next_proxy cooldown now s with ⟨o, s1⟩
    rw [hg] at he
    cases o with
    | none => exact absurd he (List.not_mem_nil e)
    | some p =>
      simp only at he
      by_cases hbl : (is_blacklisted cooldown now s1 p).1 = true
      · rw [if_pos hbl] at he
        exact request_loop_trace cooldown now oracle url n
          (is_blacklisted cooldown now s1 p).2 idx e he
      · rw [if_neg hbl] at he
        have hblf : (is_blacklisted cooldown now s1 p).1 = false := by
          simpa using hbl
        have hentry : ∀ e2 : ReqTraceEntry,
            e2 = ⟨url, some p, (is_blacklisted cooldown now s1 p).2⟩ →
            (∃ q, e2.viaProxy = some q)
            ∧ ∀ q, e2.viaProxy = some q →
                (is_blacklisted cooldown now e2.atState q).1 = false := by
          intro e2 he2
          subst he2
          refine ⟨⟨p, rfl⟩, ?_⟩
          intro q hq
          have hqp : q = p := by
            simpa using hq.symm
          subst hqp
          exact is_blacklisted_false_again cooldown now s1 q hblf
        rcases ho : oracle idx with r | _
        · rw [ho] at he
          simp only at he
          by_cases h5 : (r.status = 502 ∨ r.status = 503 ∨ r.status = 504)
          · rw [if_pos h5] at he
            simp only [List.mem_cons] at he
            rcases he with he | he
            · exact hentry e he
            · exact request_loop_trace cooldown now oracle url n
                (record_proxy_failure now (is_blacklisted cooldown now s1 p).2 p)
                (idx + 1) e he
          · rw [if_neg h5] at he
            simp only [List.mem_singleton] at he
            exact hentry e he
        · rw [ho] at he
          simp only [List.mem_cons] at he
          rcases he with he | he
          · exact hentry e he
          · exact request_loop_trace cooldown now oracle url n
              (record_proxy_failure now (is_blacklisted cooldown now s1 p).2 p)
              (idx + 1) e he

/-- With rotation enabled, an all-blacklisted pool makes the substitution
loop raise `ProxyUnavailable` on its first iteration. -/
theorem request_loop_all_blacklisted (cooldown now : Int) (oracle : Nat → NetOutcome)
    (url : String) (n : Nat) (s : ScraperState) (idx : Nat) (hn : 0 < n)
    (hrot : s.rotate = true) (hne : s.rawProxies ≠ [])
    (hall : ∀ p, p ∈ s.rawProxies → blacklistedNow cooldown now s.blacklist p = true) :
    (request_loop cooldown now oracle url n s idx).result = .unavailable := by
  rcases n with _ | m
  · omega
  · have h1 := get_next_proxy_all_blacklisted cooldown now s hne hrot hall
    have hg : get_next_proxy cooldown now s
        = (none, (get_next_proxy cooldown now s).2) := by
      rw [← h1]
    rw [request_loop, hg]

/-- With rotation enabled, whenever the substitution loop raises
`ProxyUnavailable`, every configured endpoint is blacklisted in the state
at the moment of the raise. -/
theorem request_loop_unavailable (cooldown now : Int) (oracle : Nat → NetOutcome)
    (url : String) :
    ∀ (n : Nat) (s : ScraperState) (idx : Nat), s.rotate = true → s.rawProxies ≠ [] →
      (request_loop cooldown now oracle url n s idx).result = .unavailable →
      ∀ p ∈ (request_loop cooldown now oracle url n s idx).state.rawProxies,
        blacklistedNow cooldown now
          (request_loop cooldown now oracle url n s idx).state.blacklist p = true
  | 0, s, idx, _, _, hres => by
    simp only [request_loop] at hres
    exact absurd hres (by simp)
  | n + 1, s, idx, hrot, hne, hres => by
    rw [request_loop] at hres ⊢
    rcases hg : get_next_proxy cooldown now s with ⟨o, s1⟩
    rw [hg] at hres
    have hs1 : s1.rawProxies = s.rawProxies ∧ s1.rotate = s.rotate := by
      have h := get_next_proxy_snd_fields cooldown now s
      rw [hg] at h
      exact h
    cases o with
    | none =>
      have hall := get_next_proxy_none_rotate cooldown now s s1 hne hrot hg
      intro p hp
      have hp2 : p ∈ s1.rawProxies := hp
      have hbn : blacklistedNow cooldown now s.blacklist p = true :=
        hall.2.2 p (hall.2.1 ▸ hp2)
      show blacklistedNow cooldown now s1.blacklist p = true
      rw [hall.1]
      exact hbn
    | some p =>
      simp only at hres ⊢
      by_cases hbl : (is_blacklisted cooldown now s1 p).1 = true
      · rw [if_pos hbl] at hres ⊢
        exact request_loop_unavailable cooldown now oracle url n
          (is_blacklisted cooldown now s1 p).2 idx
          (by rw [is_blacklisted_snd_rotate, hs1.2]; exact hrot)
          (by rw [is_blacklisted_snd_rawProxies, hs1.1]; exact hne) hres
      · rw [if_neg hbl] at hres ⊢
        rcases ho : oracle idx with r | _
        · rw [ho] at hres
          simp only at hres ⊢
          by_cases h5 : (r.status = 502 ∨ r.status = 503 ∨ r.status = 504)
          · rw [if_pos h5] at hres ⊢
            exact request_loop_unavailable cooldown now oracle url n
              (record_proxy_failure now (is_blacklisted cooldown now s1 p).2 p) (idx + 1)
              (by rw [record_proxy_failure_rotate, is_blacklisted_snd_rotate, hs1.2]
                  exact hrot)
              (by rw [record_proxy_failure_rawProxies, is_blacklisted_snd_rawProxies, hs1.1]
                  exact hne) hres
          · rw [if_neg h5] at hres
            exact absurd hres (by simp)
        · rw [ho] at hres
          simp only at hres ⊢
          exact request_loop_unavailable cooldown now oracle url n
            (record_proxy_failure now (is_blacklisted cooldown now s1 p).2 p) (idx + 1)
            (by rw [record_proxy_failure_rotate, is_blacklisted_snd_rotate, hs1.2]
                exact hrot)
            (by rw [record_proxy_failure_rawProxies, is_blacklisted_snd_rawProxies, hs1.1]
                exact hne) hres

/-- With rotation disabled, the substitution loop never raises
`ProxyUnavailable` (it falls out and returns `None` instead). -/
theorem request_loop_nonrotate (cooldown now : Int) (oracle : Nat → NetOutcome)
    (url : String) :
    ∀ (n : Nat) (s : ScraperState) (idx : Nat), s.rotate = false → s.rawProxies ≠ [] →
      (request_loop cooldown now oracle url n s idx).result ≠ .unavailable
  | 0, s, idx, _, _ => by
    simp only [request_loop]
    simp
  | n + 1, s, idx, hrot, hne => by
    rw [request_loop]
    rw [get_next_proxy_nonrotate cooldown now s hne hrot]
    simp only
    by_cases hbl : (is_blacklisted cooldown now s (s.rawProxies.headD "")).1 = true
    · rw [if_pos hbl]
      exact request_loop_nonrotate cooldown now oracle url n
        (is_blacklisted cooldown now s (s.rawProxies.headD "")).2 idx
        (by rw [is_blacklisted_snd_rotate]; exact hrot)
        (by rw [is_blacklisted_snd_rawProxies]; exact hne)
    · rw [if_neg hbl]
      rcases ho : oracle idx with r | _
      · simp only
        by_cases h5 : (r.status = 502 ∨ r.status = 503 ∨ r.status = 504)
        · rw [if_pos h5]
          exact request_loop_nonrotate cooldown now oracle url n
            (record_proxy_failure now
              (is_blacklisted cooldown now s (s.rawProxies.headD "")).2
              (s.rawProxies.headD "")) (idx + 1)
            (by rw [record_proxy_failure_rotate, is_blacklisted_snd_rotate]; exact hrot)
            (by rw [record_proxy_failure_rawProxies, is_blacklisted_snd_rawProxies]
                exact hne)
        · rw [if_neg h5]
          simp
      · simp only
        exact request_loop_nonrotate cooldown now oracle url n
          (record_proxy_failure now
            (is_blacklisted cooldown now s (s.rawProxies.headD "")).2
            (s.rawProxies.headD "")) (idx + 1)
          (by rw [record_proxy_failure_rotate, is_blacklisted_snd_rotate]; exact hrot)
          (by rw [record_proxy_failure_rawProxies, is_blacklisted_snd_rawProxies]
              exact hne)

/-! ### Claim C3: proxy selection, blacklist skipping, ProxyUnavailable -/

/-- A pool with rotation disabled whose single configured endpoint is
blacklisted (failed twice at time 5; current time 10, cooldown 100). -/
def c3poolNonrotate : ScraperState :=
  ⟨["p"], 0, false, dictSet dictEmpty "p" 5, dictSet dictEmpty "p" 2⟩

/-- A pool with rotation enabled whose two configured endpoints are both
blacklisted (at times 5 and 6; current time 10, cooldown 100). -/
def c3poolRotate : ScraperState :=
  ⟨["a", "b"], 0, true, dictSet (dictSet dictEmpty "a" 5) "b" 6, dictEmpty⟩

/-- C3 counterexample: with `rotate_proxies = false`, a request attempt on a
pool whose every configured endpoint is currently blacklisted does NOT raise
`ProxyUnavailable` — `_get_next_proxy` returns the first endpoint without a
blacklist check, `_request` skips it as blacklisted until `max_try` is
exhausted, and the call returns `None`.  This refutes the claim that a
request attempt raises `ProxyUnavailable` exactly when every configured
endpoint is blacklisted "in both rotation modes". -/
theorem claim_C3_counterexample :
    c3poolNonrotate.rawProxies ≠ []
    ∧ c3poolNonrotate.rotate = false
    ∧ c3poolNonrotate.rawProxies.all
        (fun q => (is_blacklisted 100 10 c3poolNonrotate q).1) = true
    ∧ (request 100 10 (fun _ => .netExn) "u" c3poolNonrotate 0).result = .noResp
    ∧ (request 100 10 (fun _ => .netExn) "u" c3poolNonrotate 0).result
        ≠ .unavailable := by
  refine ⟨by decide, rfl, by decide, by decide, by decide⟩

/-- C3 (amended): when at least one proxy endpoint is configured, every
issued request goes through a proxy (never direct) that is not blacklisted
at the moment of issue, in both rotation modes.  With rotation enabled, a
request attempt raises `ProxyUnavailable` whenever every configured
endpoint is currently blacklisted at the start of the attempt, and
conversely a raise happens only with every endpoint blacklisted at that
moment.  With rotation disabled, however, `ProxyUnavailable` is never
raised: an all-blacklisted pool makes the attempt return `None` instead. -/
theorem claim_C3_amended (cooldown now : Int) (oracle : Nat → NetOutcome) (url : String)
    (s : ScraperState) (idx : Nat) (hraw : s.rawProxies ≠ []) :
    (∀ e ∈ (request cooldown now oracle url s idx).trace,
        (∃ q, e.viaProxy = some q)
        ∧ ∀ q, e.viaProxy = some q →
            (is_blacklisted cooldown now e.atState q).1 = false)
    ∧ (s.rotate = true →
        (∀ p ∈ s.rawProxies, (is_blacklisted cooldown now s p).1 = true) →
        (request cooldown now oracle url s idx).result = .unavailable)
    ∧ (s.rotate = true →
        (request cooldown now oracle url s idx).result = .unavailable →
        ∀ p ∈ (request cooldown now oracle url s idx).state.rawProxies,
          (is_blacklisted cooldown now
            (request cooldown now oracle url s idx).state p).1 = true)
    ∧ (s.rotate = false →
        (request cooldown now oracle url s idx).result ≠ .unavailable) := by
  have hie : s.rawProxies.isEmpty = false := by
    simp [List.isEmpty_iff, hraw]
  have hreq : request cooldown now oracle url s idx
      = request_loop cooldown now oracle url (max 1 s.rawProxies.length) s idx := by
    unfold request
    rw [hie]
    rw [if_neg (by decide : ¬ (false = true))]
  refine ⟨?_, ?_, ?_, ?_⟩
  · rw [hreq]
    exact request_loop_trace cooldown now oracle url (max 1 s.rawProxies.length) s idx
  · intro hrot hall
    rw [hreq]
    refine request_loop_all_blacklisted cooldown now oracle url
      (max 1 s.rawProxies.length) s idx (by omega) hrot hraw ?_
    intro p hp
    rw [← is_blacklisted_fst]
    exact hall p hp
  · intro hrot hres
    rw [hreq] at hres ⊢
    have h := request_loop_unavailable cooldown now oracle url
      (max 1 s.rawProxies.length) s idx hrot hraw hres
    intro p hp
    rw [is_blacklisted_fst]
    exact h p hp
  · intro hrot
    rw [hreq]
    exact request_loop_nonrotate cooldown now oracle url
      (max 1 s.rawProxies.length) s idx hrot hraw

/-- Concrete instantiation of `claim_C3_amended`: with rotation enabled and
both endpoints blacklisted the attempt raises `ProxyUnavailable`; with
rotation disabled it does not. -/
theorem claim_C3_amended_witness :
    (request 100 10 (fun _ => .ok ⟨200, .products [1]⟩) "u" c3poolRotate 0).result
        = .unavailable
    ∧ (request 100 10 (fun _ => .netExn) "u" c3poolNonrotate 0).result
        ≠ .unavailable := by
  constructor
  · exact (claim_C3_amended 100 10 (fun _ => .ok ⟨200, .products [1]⟩) "u"
      c3poolRotate 0 (by decide)).2.1 rfl (by decide)
  · exact (claim_C3_amended 100 10 (fun _ => .netExn) "u"
      c3poolNonrotate 0 (by decide)).2.2.2 rfl

/-! ### Claim C9: success handling clears the endpoint's health record -/

/-- Every blacklist timestamp is positive.  This holds for every reachable
pool state, because entries are stamped with `time.time()`. -/
def posTimestamps (b : Dict Int) : Prop :=
  ∀ k t, dictGet b k = some t → 0 < t

theorem posTimestamps_dictEmpty : posTimestamps dictEmpty := by
  intro k t h
  exact absurd h (by simp [dictGet, dictEmpty])

theorem posTimestamps_dictPop (b : Dict Int) (k : String)
    (h : posTimestamps b) : posTimestamps (dictPop b k) := by
  intro q t hq
  unfold dictGet dictPop at hq
  by_cases hqk : q = k
  · rw [if_pos hqk] at hq
    exact absurd hq (by simp)
  · rw [if_neg hqk] at hq
    exact h q t hq

theorem posTimestamps_dictSet (b : Dict Int) (k : String) (v : Int)
    (h : posTimestamps b) (hv : 0 < v) : posTimestamps (dictSet b k v) := by
  intro q t hq
  unfold dictGet dictSet at hq
  by_cases hqk : q = k
  · rw [if_pos hqk] at hq
    have : v = t := by simpa using hq
    omega
  · rw [if_neg hqk] at hq
    exact h q t hq

theorem posTimestamps_is_blacklisted (cooldown now : Int) (s : ScraperState) (k : String)
    (h : posTimestamps s.blacklist) :
    posTimestamps (is_blacklisted cooldown now s k).2.blacklist := by
  rcases hb : dictGet s.blacklist k with _ | t
  · rw [is_blacklisted_eq_none cooldown now s k hb]
    exact h
  · by_cases h0 : t = 0
    · subst h0
      rw [is_blacklisted_eq_zero cooldown now s k hb]
      exact h
    · by_cases h1 : now - t > cooldown
      · rw [is_blacklisted_eq_expired cooldown now s k t hb h0 h1]
        exact posTimestamps_dictPop s.blacklist k h
      · rw [is_blacklisted_eq_active cooldown now s k t hb h0 h1]
        exact h

theorem posTimestamps_record_failure (now : Int) (s : ScraperState) (k : String)
    (h : posTimestamps s.blacklist) (hnow : 0 < now) :
    posTimestamps (record_proxy_failure now s k).blacklist := by
  unfold record_proxy_failure
  by_cases hc : (dictGet s.failCounts k).getD 0 + 1 ≥ 2
  · rw [if_pos hc]
    exact posTimestamps_dictSet s.blacklist k now h hnow
  · rw [if_neg hc]
    exact h

theorem posTimestamps_get_next_proxy_loop (cooldown now : Int) :
    ∀ (n : Nat) (s : ScraperState), posTimestamps s.blacklist →
      posTimestamps (get_next_proxy_loop cooldown now n s).2.blacklist
  | 0, s, h => h
  | n + 1, s, h => by
    unfold get_next_proxy_loop
    set p := s.rawProxies.getD (s.cursor % s.rawProxies.length) "" with hp
    set s1 : ScraperState := { s with cursor := s.cursor + 1 } with hs1
    have h1 : posTimestamps (is_blacklisted cooldown now s1 p).2.blacklist :=
      posTimestamps_is_blacklisted cooldown now s1 p h
    by_cases hbl : (is_blacklisted cooldown now s1 p).1 = true
    · rw [if_pos hbl]
      exact posTimestamps_get_next_proxy_loop cooldown now n _ h1
    · rw [if_neg hbl]
      exact h1

theorem posTimestamps_get_next_proxy (cooldown now : Int) (s : ScraperState)
    (h : posTimestamps s.blacklist) :
    posTimestamps (get_next_proxy cooldown now s).2.blacklist := by
  unfold get_next_proxy
  cases h1 : s.rawProxies.isEmpty
  · cases h2 : s.rotate
    · simp only [Bool.false_eq_true, if_false, if_pos rfl]
      exact h
    · simp only [Bool.false_eq_true, if_false, if_neg (by decide : ¬ (true = false))]
      exact posTimestamps_get_next_proxy_loop cooldown now s.rawProxies.length s h
  · simp only [if_pos rfl]
    exact h

/-- After a successful (non-blacklisted) check, the checked key has no
blacklist entry left, provided all timestamps are positive (a zero
timestamp is the one falsy case `_is_blacklisted` leaves in place). -/
theorem is_blacklisted_false_entry_none (cooldown now : Int) (s : ScraperState)
    (k : String) (hpos : posTimestamps s.blacklist)
    (h : (is_blacklisted cooldown now s k).1 = false) :
    dictGet (is_blacklisted cooldown now s k).2.blacklist k = none := by
  rcases hb : dictGet s.blacklist k with _ | t
  · rw [is_blacklisted_eq_none cooldown now s k hb]
    exact hb
  · by_cases h0 : t = 0
    · subst h0
      exact absurd (hpos k 0 hb) (by omega)
    · by_cases h1 : now - t > cooldown
      · rw [is_blacklisted_eq_expired cooldown now s k t hb h0 h1]
        exact dictGet_dictPop_self s.blacklist k
      · rw [is_blacklisted_eq_active cooldown now s k t hb h0 h1] at h
        exact absurd h (by simp)

/-- When the substitution loop returns a response through proxy `p`, the
final state carries no fail count and no blacklist entry for `p`. -/
theorem request_loop_success (cooldown now : Int) (oracle : Nat → NetOutcome)
    (url : String) :
    ∀ (n : Nat) (s : ScraperState) (idx : Nat), 0 < now →
      posTimestamps s.blacklist →
      ∀ p, (request_loop cooldown now oracle url n s idx).viaProxy = some p →
        dictGet (request_loop cooldown now oracle url n s idx).state.failCounts p = none
        ∧ dictGet (request_loop cooldown now oracle url n s idx).state.blacklist p = none
  | 0, s, idx, _, _, p, hv => by
    simp only [request_loop] at hv
    exact absurd hv (by simp)
  | n + 1, s, idx, hnow, hpos, p, hv => by
    rw [request_loop] at hv ⊢
    rcases hg : get_next_proxy cooldown now s with ⟨o, s1⟩
    rw [hg] at hv
    have hpos1 : posTimestamps s1.blacklist := by
      have h := posTimestamps_get_next_proxy cooldown now s hpos
      rw [hg] at h
      exact h
    cases o with
    | none => exact absurd hv (by simp at hv ⊢)
    | some q =>
      simp only at hv ⊢
      by_cases hbl : (is_blacklisted cooldown now s1 q).1 = true
      · rw [if_pos hbl] at hv ⊢
        exact request_loop_success cooldown now oracle url n
          (is_blacklisted cooldown now s1 q).2 idx hnow
          (posTimestamps_is_blacklisted cooldown now s1 q hpos1) p hv
      · rw [if_neg hbl] at hv ⊢
        have hblf : (is_blacklisted cooldown now s1 q).1 = false := by
          simpa using hbl
        rcases ho : oracle idx with r | _
        · rw [ho] at hv
          simp only at hv ⊢
          by_cases h5 : (r.status = 502 ∨ r.status = 503 ∨ r.status = 504)
          · rw [if_pos h5] at hv ⊢
            exact request_loop_success cooldown now oracle url n
              (record_proxy_failure now (is_blacklisted cooldown now s1 q).2 q) (idx + 1)
              hnow
              (posTimestamps_record_failure now (is_blacklisted cooldown now s1 q).2 q
                (posTimestamps_is_blacklisted cooldown now s1 q hpos1) hnow) p hv
          · rw [if_neg h5] at hv ⊢
            have hqp : q = p := by simpa using hv
            subst hqp
            constructor
            · exact dictGet_dictPop_self _ q
            · show dictGet (is_blacklisted cooldown now s1 q).2.blacklist q = none
              exact is_blacklisted_false_entry_none cooldown now s1 q hpos1 hblf
        · rw [ho] at hv
          simp only at hv ⊢
          exact request_loop_success cooldown now oracle url n
            (record_proxy_failure now (is_blacklisted cooldown now s1 q).2 q) (idx + 1)
            hnow
            (posTimestamps_record_failure now (is_blacklisted cooldown now s1 q).2 q
              (posTimestamps_is_blacklisted cooldown now s1 q hpos1) hnow) p hv

/-- C9: whenever a request receives a response other than 502/503/504
through a proxy endpoint (`viaProxy` is exactly the proxy of the returned
response), the endpoint's health record is cleared afterwards: no failure
count and no blacklist entry remain for it.  The timestamp-positivity
hypothesis holds for every reachable pool state, since blacklist entries
are stamped with `time.time()`. -/
theorem claim_C9 (cooldown now : Int) (oracle : Nat → NetOutcome) (url : String)
    (s : ScraperState) (idx : Nat) (hnow : 0 < now)
    (hpos : posTimestamps s.blacklist) :
    ∀ p, (request cooldown now oracle url s idx).viaProxy = some p →
      dictGet (request cooldown now oracle url s idx).state.failCounts p = none
      ∧ dictGet (request cooldown now oracle url s idx).state.blacklist p = none := by
  intro p hv
  unfold request at hv ⊢
  cases h1 : s.rawProxies.isEmpty
  · rw [h1] at hv
    rw [if_neg (by decide : ¬ (false = true))] at hv ⊢
    exact request_loop_success cooldown now oracle url
      (max 1 s.rawProxies.length) s idx hnow hpos p hv
  · rw [h1] at hv
    rw [if_pos rfl] at hv ⊢
    rcases ho : oracle idx with r | _
    · rw [ho] at hv
      exact absurd hv (by simp)
    · rw [ho] at hv
      exact absurd hv (by simp)

/-- Concrete instantiation of `claim_C9`: a 404 through proxy `p` (which had
one recorded failure) clears its failure count, and no blacklist entry
remains. -/
theorem claim_C9_witness :
    (request 100 10 (fun _ => .ok ⟨404, .noKey⟩) "u"
        ⟨["p", "q"], 0, true, dictSet dictEmpty "q" 5, dictSet dictEmpty "p" 1⟩
        0).viaProxy = some "p"
    ∧ dictGet (request 100 10 (fun _ => .ok ⟨404, .noKey⟩) "u"
        ⟨["p", "q"], 0, true, dictSet dictEmpty "q" 5, dictSet dictEmpty "p" 1⟩
        0).state.failCounts "p" = none
    ∧ dictGet (request 100 10 (fun _ => .ok ⟨404, .noKey⟩) "u"
        ⟨["p", "q"], 0, true, dictSet dictEmpty "q" 5, dictSet dictEmpty "p" 1⟩
        0).state.blacklist "p" = none := by
  refine ⟨by decide, ?_, ?_⟩
  · exact (claim_C9 100 10 (fun _ => .ok ⟨404, .noKey⟩) "u"
      ⟨["p", "q"], 0, true, dictSet dictEmpty "q" 5, dictSet dictEmpty "p" 1⟩ 0
      (by decide)
      (posTimestamps_dictSet dictEmpty "q" 5 posTimestamps_dictEmpty (by decide))
      "p" (by decide)).1
  · exact (claim_C9 100 10 (fun _ => .ok ⟨404, .noKey⟩) "u"
      ⟨["p", "q"], 0, true, dictSet dictEmpty "q" 5, dictSet dictEmpty "p" 1⟩ 0
      (by decide)
      (posTimestamps_dictSet dictEmpty "q" 5 posTimestamps_dictEmpty (by decide))
      "p" (by decide)).2

/-! ### Lemmas about page fetching in direct (no-proxy) mode -/

theorem request_direct_ok (cooldown now : Int) (oracle : Nat → NetOutcome)
    (url : String) (s : ScraperState) (idx : Nat) (hraw : s.rawProxies = [])
    (r : HResp) (ho : oracle idx = .ok r) :
    request cooldown now oracle url s idx
      = ⟨.resp r, none, s, idx + 1, [⟨url, none, s⟩]⟩ := by
  have hie : s.rawProxies.isEmpty = true := by rw [hraw]; rfl
  unfold request
  rw [hie, if_pos rfl, ho]

theorem request_direct_exn (cooldown now : Int) (oracle : Nat → NetOutcome)
    (url : String) (s : ScraperState) (idx : Nat) (hraw : s.rawProxies = [])
    (ho : oracle idx = .netExn) :
    request cooldown now oracle url s idx
      = ⟨.noResp, none, s, idx + 1, [⟨url, none, s⟩]⟩ := by
  have hie : s.rawProxies.isEmpty = true := by rw [hraw]; rfl
  unfold request
  rw [hie, if_pos rfl, ho]

theorem get_page_loop_products (cfg : Cfg) (now : Int) (oracle : Nat → NetOutcome)
    (page : Nat) (left attempt : Nat) (s : ScraperState) (idx : Nat)
    (hraw : s.rawProxies = []) (hleft : 0 < left) (l : List Nat)
    (ho : oracle idx = .ok ⟨200, .products l⟩) :
    get_page_loop cfg now oracle page left attempt s idx
      = ⟨.page l, s, idx + 1, [], [page_url cfg.baseUrl page]⟩ := by
  rcases left with _ | left
  · omega
  · unfold get_page_loop
    dsimp only
    rw [request_direct_ok cfg.cooldown now oracle (page_url cfg.baseUrl page) s idx
      hraw ⟨200, .products l⟩ ho]
    rfl

theorem get_page_loop_noKey (cfg : Cfg) (now : Int) (oracle : Nat → NetOutcome)
    (page : Nat) (left attempt : Nat) (s : ScraperState) (idx : Nat)
    (hraw : s.rawProxies = []) (hleft : 0 < left)
    (ho : oracle idx = .ok ⟨200, .noKey⟩) :
    get_page_loop cfg now oracle page left attempt s idx
      = ⟨.noPage, s, idx + 1, [], [page_url cfg.baseUrl page]⟩ := by
  rcases left with _ | left
  · omega
  · unfold get_page_loop
    dsimp only
    rw [request_direct_ok cfg.cooldown now oracle (page_url cfg.baseUrl page) s idx
      hraw ⟨200, .noKey⟩ ho]
    rfl

theorem get_page_loop_fatal_status (cfg : Cfg) (now : Int) (oracle : Nat → NetOutcome)
    (page : Nat) (left attempt : Nat) (s : ScraperState) (idx : Nat)
    (hraw : s.rawProxies = []) (hleft : 0 < left) (r : HResp)
    (ho : oracle idx = .ok r) (h200 : ¬ r.status = 200) (h429 : ¬ r.status = 429)
    (h5xx : ¬ (500 ≤ r.status ∧ r.status < 600)) :
    get_page_loop cfg now oracle page left attempt s idx
      = ⟨.noPage, s, idx + 1, [], [page_url cfg.baseUrl page]⟩ := by
  rcases left with _ | left
  · omega
  · unfold get_page_loop
    dsimp only
    rw [request_direct_ok cfg.cooldown now oracle (page_url cfg.baseUrl page) s idx
      hraw r ho]
    dsimp only
    simp only [if_neg h200, if_neg h429, if_neg h5xx]
    rfl

/-- With no proxies configured, a page fetch whose every attempt hits a
retryable outcome exhausts `left` attempts, consuming one oracle entry per
attempt, and returns `None`. -/
theorem get_page_loop_exhaust (cfg : Cfg) (now : Int) (oracle : Nat → NetOutcome)
    (page : Nat) :
    ∀ (left attempt : Nat) (s : ScraperState) (idx : Nat), s.rawProxies = [] →
      (∀ j, j < left → retryableOutcome (oracle (idx + j))) →
      (get_page_loop cfg now oracle page left attempt s idx).result = .noPage
      ∧ (get_page_loop cfg now oracle page left attempt s idx).state = s
      ∧ (get_page_loop cfg now oracle page left attempt s idx).nextIdx = idx + left
  | 0, attempt, s, idx, _, _ => ⟨rfl, rfl, rfl⟩
  | left + 1, attempt, s, idx, hraw, hretry => by
    have h0 := hretry 0 (by omega)
    rw [Nat.add_zero] at h0
    have ih := get_page_loop_exhaust cfg now oracle page left (attempt + 1) s (idx + 1)
      hraw (by
        intro j hj
        have h := hretry (j + 1) (by omega)
        rwa [show idx + (j + 1) = idx + 1 + j by omega] at h)
    unfold get_page_loop
    dsimp only
    rcases ho : oracle idx with r | _
    · rw [ho] at h0
      simp only [retryableOutcome] at h0
      rw [request_direct_ok cfg.cooldown now oracle (page_url cfg.baseUrl page) s idx
        hraw r ho]
      dsimp only
      have h200 : ¬ r.status = 200 := by rcases h0 with h | h <;> omega
      rw [if_neg h200]
      by_cases h429 : r.status = 429
      · rw [if_pos h429]
        exact ⟨ih.1, ih.2.1, by rw [ih.2.2]; omega⟩
      · have h5 : 500 ≤ r.status ∧ r.status < 600 := by tauto
        rw [if_neg h429, if_pos h5]
        exact ⟨ih.1, ih.2.1, by rw [ih.2.2]; omega⟩
    · rw [request_direct_exn cfg.cooldown now oracle (page_url cfg.baseUrl page) s idx
        hraw ho]
      dsimp only
      exact ⟨ih.1, ih.2.1, by rw [ih.2.2]; omega⟩

theorem backoff_cons_massage (bf : Rat) (attempt m : Nat) (tail : List Rat)
    (h : tail = (List.range m).map (fun j => bf * 2 ^ (attempt + 1 + j))) :
    bf * 2 ^ (attempt + 1 - 1) :: tail
      = (List.range (m + 1)).map (fun j => bf * 2 ^ (attempt + j)) := by
  subst h
  rw [List.range_succ_eq_map, List.map_cons, List.map_map]
  congr 1
  refine List.map_congr_left ?_
  intro j _
  simp only [Function.comp_apply]
  rw [show attempt + 1 + j = attempt + (j + 1) by omega]

/-- The backoff sleeps of one page fetch form the exponential schedule
`backoff_factor * 2 ^ (attempt + j)` for consecutive `j`, whatever the
network does. -/
theorem get_page_loop_backoffs (cfg : Cfg) (now : Int) (oracle : Nat → NetOutcome)
    (page : Nat) :
    ∀ (left attempt : Nat) (s : ScraperState) (idx : Nat),
      ∃ m, (get_page_loop cfg now oracle page left attempt s idx).backoffs
        = (List.range m).map (fun j => cfg.backoffFactor * 2 ^ (attempt + j))
  | 0, attempt, s, idx => ⟨0, rfl⟩
  | left + 1, attempt, s, idx => by
    unfold get_page_loop
    dsimp only
    rcases hres : (request cfg.cooldown now oracle (page_url cfg.baseUrl page) s idx).result
      with r | _ | _
    · dsimp only
      by_cases h200 : r.status = 200
      · rw [if_pos h200]
        cases hb : r.body
        · exact ⟨0, rfl⟩
        · exact ⟨0, rfl⟩
      · rw [if_neg h200]
        by_cases h429 : r.status = 429
        · rw [if_pos h429]
          obtain ⟨m, hm⟩ := get_page_loop_backoffs cfg now oracle page left (attempt + 1)
            (request cfg.cooldown now oracle (page_url cfg.baseUrl page) s idx).state
            (request cfg.cooldown now oracle (page_url cfg.baseUrl page) s idx).nextIdx
          exact ⟨m + 1, backoff_cons_massage cfg.backoffFactor attempt m _ hm⟩
        · rw [if_neg h429]
          by_cases h5 : 500 ≤ r.status ∧ r.status < 600
          · rw [if_pos h5]
            obtain ⟨m, hm⟩ := get_page_loop_backoffs cfg now oracle page left (attempt + 1)
              (request cfg.cooldown now oracle (page_url cfg.baseUrl page) s idx).state
              (request cfg.cooldown now oracle (page_url cfg.baseUrl page) s idx).nextIdx
            exact ⟨m + 1, backoff_cons_massage cfg.backoffFactor attempt m _ hm⟩
          · rw [if_neg h5]
            exact ⟨0, rfl⟩
    · obtain ⟨m, hm⟩ := get_page_loop_backoffs cfg now oracle page left (attempt + 1)
        (request cfg.cooldown now oracle (page_url cfg.baseUrl page) s idx).state
        (request cfg.cooldown now oracle (page_url cfg.baseUrl page) s idx).nextIdx
      exact ⟨m + 1, backoff_cons_massage cfg.backoffFactor attempt m _ hm⟩
    · exact ⟨0, rfl⟩

theorem request_loop_trace_url (cooldown now : Int) (oracle : Nat → NetOutcome)
    (url : String) :
    ∀ (n : Nat) (s : ScraperState) (idx : Nat),
      ∀ e ∈ (request_loop cooldown now oracle url n s idx).trace, e.url = url
  | 0, s, idx => by
    intro e he
    simp only [request_loop] at he
    exact absurd he (List.not_mem_nil e)
  | n + 1, s, idx => by
    intro e he
    rw [request_loop] at he
    rcases hg : get_next_proxy cooldown now s with ⟨o, s1⟩
    rw [hg] at he
    cases o with
    | none => exact absurd he (List.not_mem_nil e)
    | some p =>
      simp only at he
      by_cases hbl : (is_blacklisted cooldown now s1 p).1 = true
      · rw [if_pos hbl] at he
        exact request_loop_trace_url cooldown now oracle url n
          (is_blacklisted cooldown now s1 p).2 idx e he
      · rw [if_neg hbl] at he
        rcases ho : oracle idx with r | _
        · rw [ho] at he
          simp only at he
          by_cases h5 : (r.status = 502 ∨ r.status = 503 ∨ r.status = 504)
          · rw [if_pos h5] at he
            simp only [List.mem_cons] at he
            rcases he with he | he
            · rw [he]
            · exact request_loop_trace_url cooldown now oracle url n
                (record_proxy_failure now (is_blacklisted cooldown now s1 p).2 p)
                (idx + 1) e he
          · rw [if_neg h5] at he
            simp only [List.mem_singleton] at he
            rw [he]
        · rw [ho] at he
          simp only [List.mem_cons] at he
          rcases he with he | he
          · rw [he]
          · exact request_loop_trace_url cooldown now oracle url n
              (record_proxy_failure now (is_blacklisted cooldown now s1 p).2 p)
              (idx + 1) e he

theorem request_trace_url (cooldown now : Int) (oracle : Nat → NetOutcome)
    (url : String) (s : ScraperState) (idx : Nat) :
    ∀ e ∈ (request cooldown now oracle url s idx).trace, e.url = url := by
  intro e he
  unfold request at he
  cases h1 : s.rawProxies.isEmpty
  · rw [h1] at he
    rw [if_neg (by decide : ¬ (false = true))] at he
    exact request_loop_trace_url cooldown now oracle url
      (max 1 s.rawProxies.length) s idx e he
  · rw [h1] at he
    rw [if_pos rfl] at he
    rcases ho : oracle idx with r | _
    · rw [ho] at he
      simp only [List.mem_singleton] at he
      rw [he]
    · rw [ho] at he
      simp only [List.mem_singleton] at he
      rw [he]

/-- Every URL issued on behalf of one page fetch is the page URL built at
line 117. -/
theorem get_page_loop_urls (cfg : Cfg) (now : Int) (oracle : Nat → NetOutcome)
    (page : Nat) :
    ∀ (left attempt : Nat) (s : ScraperState) (idx : Nat),
      ∀ u ∈ (get_page_loop cfg now oracle page left attempt s idx).urls,
        u = page_url cfg.baseUrl page
  | 0, attempt, s, idx => by
    intro u hu
    simp only [get_page_loop] at hu
    exact absurd hu (List.not_mem_nil u)
  | left + 1, attempt, s, idx => by
    intro u hu
    rw [get_page_loop] at hu
    dsimp only at hu
    have htr : ∀ u2, u2 ∈ List.map (fun e => e.url)
        (request cfg.cooldown now oracle (page_url cfg.baseUrl page) s idx).trace →
        u2 = page_url cfg.baseUrl page := by
      intro u2 hu2
      obtain ⟨e, he, heq⟩ := List.mem_map.mp hu2
      rw [← heq]
      exact request_trace_url cfg.cooldown now oracle (page_url cfg.baseUrl page)
        s idx e he
    rcases hres : (request cfg.cooldown now oracle (page_url cfg.baseUrl page) s idx).result
      with r | _ | _
    · rw [hres] at hu
      dsimp only at hu
      by_cases h200 : r.status = 200
      · rw [if_pos h200] at hu
        cases hb : r.body
        · rw [hb] at hu
          exact htr u hu
        · rw [hb] at hu
          exact htr u hu
      · rw [if_neg h200] at hu
        by_cases h429 : r.status = 429
        · rw [if_pos h429] at hu
          rcases List.mem_append.mp hu with hu | hu
          · exact htr u hu
          · exact get_page_loop_urls cfg now oracle page left (attempt + 1) _ _ u hu
        · rw [if_neg h429] at hu
          by_cases h5 : 500 ≤ r.status ∧ r.status < 600
          · rw [if_pos h5] at hu
            rcases List.mem_append.mp hu with hu | hu
            · exact htr u hu
            · exact get_page_loop_urls cfg now oracle page left (attempt + 1) _ _ u hu
          · rw [if_neg h5] at hu
            exact htr u hu
    · rw [hres] at hu
      dsimp only at hu
      rcases List.mem_append.mp hu with hu | hu
      · exact htr u hu
      · exact get_page_loop_urls cfg now oracle page left (attempt + 1) _ _ u hu
    · rw [hres] at hu
      dsimp only at hu
      exact htr u hu

/-! ### Lemmas about the pagination loop in direct mode -/

/-- One successful non-empty page fetch makes the pagination loop
accumulate, sleep the politeness delay, and continue. -/
theorem scrape_loop_step (cfg : Cfg) (now : Int) (oracle : Nat → NetOutcome)
    (f page idx : Nat) (s : ScraperState) (hraw : s.rawProxies = [])
    (hret : 1 ≤ cfg.maxRetries) (l : List Nat)
    (ho : oracle idx = .ok ⟨200, .products l⟩) (hne : l ≠ []) :
    scrape_loop cfg now oracle (f + 1) page s idx
      = ⟨l ++ (scrape_loop cfg now oracle f (page + 1) s (idx + 1)).records,
          (scrape_loop cfg now oracle f (page + 1) s (idx + 1)).fetches + 1,
          cfg.delay :: (scrape_loop cfg now oracle f (page + 1) s (idx + 1)).politeness,
          (scrape_loop cfg now oracle f (page + 1) s (idx + 1)).raised,
          (scrape_loop cfg now oracle f (page + 1) s (idx + 1)).state,
          (scrape_loop cfg now oracle f (page + 1) s (idx + 1)).nextIdx⟩ := by
  have hgp : get_page_with_retries cfg now oracle page s idx
      = ⟨.page l, s, idx + 1, [], [page_url cfg.baseUrl page]⟩ :=
    get_page_loop_products cfg now oracle page cfg.maxRetries 0 s idx hraw (by omega) l ho
  have hemp : l.isEmpty = false := by
    rcases l with _ | ⟨a, l⟩
    · exact absurd rfl hne
    · rfl
  rw [scrape_loop]
  dsimp only
  rw [hgp]
  dsimp only
  rw [if_neg (by rw [hemp]; exact Bool.false_ne_true)]

/-- A page fetch returning `None` or an empty products list terminates the
pagination loop with what was accumulated (nothing at this frame). -/
theorem scrape_loop_term (cfg : Cfg) (now : Int) (oracle : Nat → NetOutcome)
    (f page idx : Nat) (s : ScraperState)
    (h1 : (get_page_with_retries cfg now oracle page s idx).result = .noPage) :
    scrape_loop cfg now oracle (f + 1) page s idx
      = ⟨[], 1, [], false, (get_page_with_retries cfg now oracle page s idx).state,
          (get_page_with_retries cfg now oracle page s idx).nextIdx⟩ := by
  rw [scrape_loop]
  dsimp only
  rw [h1]

/-- Same termination shape for an empty products array. -/
theorem scrape_loop_term_empty (cfg : Cfg) (now : Int) (oracle : Nat → NetOutcome)
    (f page idx : Nat) (s : ScraperState) (hraw : s.rawProxies = [])
    (hret : 1 ≤ cfg.maxRetries) (ho : oracle idx = .ok ⟨200, .products []⟩) :
    scrape_loop cfg now oracle (f + 1) page s idx = ⟨[], 1, [], false, s, idx + 1⟩ := by
  have hgp : get_page_with_retries cfg now oracle page s idx
      = ⟨.page [], s, idx + 1, [], [page_url cfg.baseUrl page]⟩ :=
    get_page_loop_products cfg now oracle page cfg.maxRetries 0 s idx hraw (by omega) [] ho
  rw [scrape_loop]
  dsimp only
  rw [hgp]
  rfl

/-- Pagination decomposition: `k` consecutive non-empty pages starting at
oracle index `idx` contribute their records in order, one fetch and one
politeness sleep each, and the loop continues with the remaining fuel. -/
theorem scrape_loop_shift (cfg : Cfg) (now : Int) (oracle : Nat → NetOutcome)
    (P : Nat → List Nat) :
    ∀ (k fuel page idx : Nat) (s : ScraperState), s.rawProxies = [] →
      1 ≤ cfg.maxRetries → k ≤ fuel →
      (∀ i, i < k →
        oracle (idx + i) = .ok ⟨200, .products (P (idx + i))⟩ ∧ P (idx + i) ≠ []) →
      (scrape_loop cfg now oracle fuel page s idx).records
          = ((List.range k).map (fun i => P (idx + i))).flatten
            ++ (scrape_loop cfg now oracle (fuel - k) (page + k) s (idx + k)).records
      ∧ (scrape_loop cfg now oracle fuel page s idx).fetches
          = k + (scrape_loop cfg now oracle (fuel - k) (page + k) s (idx + k)).fetches
      ∧ (scrape_loop cfg now oracle fuel page s idx).politeness
          = List.replicate k cfg.delay
            ++ (scrape_loop cfg now oracle (fuel - k) (page + k) s (idx + k)).politeness
      ∧ (scrape_loop cfg now oracle fuel page s idx).raised
          = (scrape_loop cfg now oracle (fuel - k) (page + k) s (idx + k)).raised
      ∧ (scrape_loop cfg now oracle fuel page s idx).nextIdx
          = (scrape_loop cfg now oracle (fuel - k) (page + k) s (idx + k)).nextIdx
  | 0, fuel, page, idx, s, _, _, _, _ =>
    ⟨rfl, (Nat.zero_add _).symm, rfl, rfl, rfl⟩
  | k + 1, fuel, page, idx, s, hraw, hret, hk, hpages => by
    rcases fuel with _ | f
    · omega
    have h0 := hpages 0 (by omega)
    rw [Nat.add_zero] at h0
    have hstep := scrape_loop_step cfg now oracle f page idx s hraw hret
      (P idx) h0.1 h0.2
    have ih := scrape_loop_shift cfg now oracle P k f (page + 1) (idx + 1) s hraw hret
      (by omega) (by
        intro i hi
        have h := hpages (i + 1) (by omega)
        rwa [show idx + (i + 1) = idx + 1 + i by omega] at h)
    have ha1 : f + 1 - (k + 1) = f - k := by omega
    have ha2 : page + (k + 1) = page + 1 + k := by omega
    have ha3 : idx + (k + 1) = idx + 1 + k := by omega
    have hflat : ((List.range (k + 1)).map (fun i => P (idx + i))).flatten
        = P idx ++ ((List.range k).map (fun i => P (idx + 1 + i))).flatten := by
      rw [List.range_succ_eq_map, List.map_cons, List.flatten_cons, List.map_map]
      have hm : (List.range k).map ((fun i => P (idx + i)) ∘ Nat.succ)
          = (List.range k).map (fun i => P (idx + 1 + i)) :=
        List.map_congr_left (fun i _ => by
          simp only [Function.comp_apply]
          congr 1
          omega)
      rw [hm, Nat.add_zero]
    rw [hstep, ha1, ha2, ha3]
    dsimp only
    refine ⟨?_, ?_, ?_, ?_, ?_⟩
    · rw [ih.1, ← List.append_assoc, ← hflat]
    · rw [ih.2.1]
      omega
    · rw [ih.2.2.1, List.replicate_succ]
      rfl
    · exact ih.2.2.2.1
    · exact ih.2.2.2.2

/-- Assembly: `k` non-empty pages followed by a page fetch returning `None`
(for whatever reason) make `scrape_all_products` return the accumulated
records without raising. -/
theorem scrape_noPage_assemble (cfg : Cfg) (now : Int) (oracle : Nat → NetOutcome)
    (P : Nat → List Nat) (k : Nat) (s : ScraperState) (hraw : s.rawProxies = [])
    (hret : 1 ≤ cfg.maxRetries) (hk : k + 1 ≤ cfg.maxPages)
    (hpages : ∀ i, i < k → oracle i = .ok ⟨200, .products (P i)⟩ ∧ P i ≠ [])
    (hnp : (get_page_with_retries cfg now oracle (1 + k) s k).result = .noPage) :
    (scrape_all_products cfg now oracle s).raised = false
    ∧ (scrape_all_products cfg now oracle s).records = ((List.range k).map P).flatten
    ∧ (scrape_all_products cfg now oracle s).fetches = k + 1
    ∧ (scrape_all_products cfg now oracle s).politeness = List.replicate k cfg.delay
    ∧ (scrape_all_products cfg now oracle s).nextIdx
        = (get_page_with_retries cfg now oracle (1 + k) s k).nextIdx := by
  have hshift := scrape_loop_shift cfg now oracle P k cfg.maxPages 1 0 s hraw hret
    (by omega) (by
      intro i hi
      rw [Nat.zero_add]
      exact hpages i hi)
  simp only [Nat.zero_add] at hshift
  obtain ⟨m, hm⟩ : ∃ m, cfg.maxPages - k = m + 1 := ⟨cfg.maxPages - k - 1, by omega⟩
  rw [hm] at hshift
  have hterm := scrape_loop_term cfg now oracle m (1 + k) k s hnp
  rw [hterm] at hshift
  unfold scrape_all_products
  refine ⟨hshift.2.2.2.1, ?_, ?_, ?_, hshift.2.2.2.2⟩
  · rw [hshift.1, List.append_nil]
  · rw [hshift.2.1]
  · rw [hshift.2.2.1, List.append_nil]

/-- Assembly: when every page is non-empty, pagination runs the full
`max_pages` budget, with a politeness sleep after every page including the
last. -/
theorem scrape_all_nonempty (cfg : Cfg) (now : Int) (oracle : Nat → NetOutcome)
    (s : ScraperState) (hraw : s.rawProxies = []) (hret : 1 ≤ cfg.maxRetries)
    (hall : ∀ i, ∃ l, oracle i = .ok ⟨200, .products l⟩ ∧ l ≠ []) :
    (scrape_all_products cfg now oracle s).fetches = cfg.maxPages
    ∧ (scrape_all_products cfg now oracle s).politeness
        = List.replicate cfg.maxPages cfg.delay := by
  have hshift := scrape_loop_shift cfg now oracle (fun i => (hall i).choose)
    cfg.maxPages cfg.maxPages 1 0 s hraw hret (Nat.le_refl _) (by
      intro i hi
      rw [Nat.zero_add]
      exact (hall i).choose_spec)
  rw [Nat.sub_self] at hshift
  have hf0 : (scrape_loop cfg now oracle 0 (1 + cfg.maxPages) s (0 + cfg.maxPages)).fetches
      = 0 := rfl
  have hp0 : (scrape_loop cfg now oracle 0 (1 + cfg.maxPages) s (0 + cfg.maxPages)).politeness
      = [] := rfl
  unfold scrape_all_products
  constructor
  · rw [hshift.2.1, hf0, Nat.add_zero]
  · rw [hshift.2.2.1, hp0, List.append_nil]

/-! ### Claim C1: concatenation of all pages before the first empty page -/

/-- C1: when pages `1..k` return HTTP 200 with the non-empty products
arrays `P 0 .. P (k-1)` (the oracle index `i` carries page `i+1`) and page
`k+1` returns HTTP 200 with an empty products array, `k + 1 ≤ max_pages`,
`scrape_all_products` returns exactly the concatenation of the `k` arrays
in page order, having fetched `k + 1` pages. -/
theorem claim_C1 (cfg : Cfg) (now : Int) (oracle : Nat → NetOutcome)
    (P : Nat → List Nat) (k : Nat) (s : ScraperState) (hraw : s.rawProxies = [])
    (hret : 1 ≤ cfg.maxRetries) (hk : k + 1 ≤ cfg.maxPages)
    (hpages : ∀ i, i < k → oracle i = .ok ⟨200, .products (P i)⟩ ∧ P i ≠ [])
    (hempty : oracle k = .ok ⟨200, .products []⟩) :
    (scrape_all_products cfg now oracle s).records = ((List.range k).map P).flatten
    ∧ (scrape_all_products cfg now oracle s).fetches = k + 1 := by
  have hshift := scrape_loop_shift cfg now oracle P k cfg.maxPages 1 0 s hraw hret
    (by omega) (by
      intro i hi
      rw [Nat.zero_add]
      exact hpages i hi)
  simp only [Nat.zero_add] at hshift
  obtain ⟨m, hm⟩ : ∃ m, cfg.maxPages - k = m + 1 := ⟨cfg.maxPages - k - 1, by omega⟩
  rw [hm] at hshift
  have hterm := scrape_loop_term_empty cfg now oracle m (1 + k) k s hraw hret hempty
  rw [hterm] at hshift
  unfold scrape_all_products
  constructor
  · rw [hshift.1, List.append_nil]
  · rw [hshift.2.1]

/-- Oracle of the `claim_C1` witness: pages 1 and 2 carry two and one
records, page 3 is empty. -/
def c1oracle : Nat → NetOutcome := fun n =>
  if n = 0 then .ok ⟨200, .products [1, 2]⟩
  else if n = 1 then .ok ⟨200, .products [3]⟩
  else .ok ⟨200, .products []⟩

/-- Products of the `claim_C1` witness pages. -/
def c1P : Nat → List Nat := fun n =>
  if n = 0 then [1, 2] else if n = 1 then [3] else []

/-- Concrete instantiation of `claim_C1`: 2 + 1 records over two pages, an
empty page 3, `max_pages` 5 — the result is `[1, 2, 3]` in order after 3
fetches. -/
theorem claim_C1_witness :
    (scrape_all_products ⟨"https://shop.example/", 5, 3, 1, 1, 100⟩ 10 c1oracle
        (init_state [] true)).records = [1, 2, 3]
    ∧ (scrape_all_products ⟨"https://shop.example/", 5, 3, 1, 1, 100⟩ 10 c1oracle
        (init_state [] true)).fetches = 3 := by
  have h := claim_C1 ⟨"https://shop.example/", 5, 3, 1, 1, 100⟩ 10 c1oracle c1P 2
    (init_state [] true) rfl (by decide) (by decide)
    (fun i hi => match i, hi with
      | 0, _ => ⟨rfl, by decide⟩
      | 1, _ => ⟨rfl, by decide⟩)
    rfl
  constructor
  · rw [h.1]
    decide
  · exact h.2

/-- A page attempt answered by a fatal response (200 without the products
key, or an unexpected status code) returns `None` immediately: one oracle
entry consumed, no retries, no backoff. -/
theorem get_page_fatal_noPage (cfg : Cfg) (now : Int) (oracle : Nat → NetOutcome)
    (page : Nat) (s : ScraperState) (idx : Nat) (hraw : s.rawProxies = [])
    (hret : 1 ≤ cfg.maxRetries) (r : HResp) (hor : oracle idx = .ok r)
    (hf : fatalResponse r) :
    get_page_with_retries cfg now oracle page s idx
      = ⟨.noPage, s, idx + 1, [], [page_url cfg.baseUrl page]⟩ := by
  rcases hf with ⟨h200, hbody⟩ | ⟨h200, h429, h5⟩
  · have hr : r = ⟨200, .noKey⟩ := by
      rcases r with ⟨st, b⟩
      simp only at h200 hbody
      rw [h200, hbody]
    rw [hr] at hor
    exact get_page_loop_noKey cfg now oracle page cfg.maxRetries 0 s idx hraw
      (by omega) hor
  · exact get_page_loop_fatal_status cfg now oracle page cfg.maxRetries 0 s idx hraw
      (by omega) r hor h200 h429 h5

/-! ### Claim C2: page-level failures end pagination gracefully -/

/-- C2: after `k` good pages, a page attempt that yields HTTP 200 without a
products key or an unexpected status code is fatal for that page with no
further retries (exactly one oracle entry is consumed, `nextIdx = k + 1`),
and retry exhaustion likewise returns `None`; in every such case
`scrape_all_products` does not raise, pagination stops, and the records of
the earlier pages are returned. -/
theorem claim_C2 (cfg : Cfg) (now : Int) (oracle : Nat → NetOutcome)
    (P : Nat → List Nat) (k : Nat) (s : ScraperState) (hraw : s.rawProxies = [])
    (hret : 1 ≤ cfg.maxRetries) (hk : k + 1 ≤ cfg.maxPages)
    (hpages : ∀ i, i < k → oracle i = .ok ⟨200, .products (P i)⟩ ∧ P i ≠ [])
    (hterm : (∃ r, oracle k = .ok r ∧ fatalResponse r)
      ∨ (∀ j, j < cfg.maxRetries → retryableOutcome (oracle (k + j)))) :
    (scrape_all_products cfg now oracle s).raised = false
    ∧ (scrape_all_products cfg now oracle s).records = ((List.range k).map P).flatten
    ∧ (scrape_all_products cfg now oracle s).fetches = k + 1
    ∧ ((∃ r, oracle k = .ok r ∧ fatalResponse r) →
        (scrape_all_products cfg now oracle s).nextIdx = k + 1) := by
  rcases hterm with ⟨r, hor, hf⟩ | hretry
  · have hgp := get_page_fatal_noPage cfg now oracle (1 + k) s k hraw hret r hor hf
    have hasm := scrape_noPage_assemble cfg now oracle P k s hraw hret hk hpages
      (by rw [hgp])
    refine ⟨hasm.1, hasm.2.1, hasm.2.2.1, fun _ => ?_⟩
    rw [hasm.2.2.2.2, hgp]
  · have hexh := get_page_loop_exhaust cfg now oracle (1 + k) cfg.maxRetries 0 s k
      hraw hretry
    have hasm := scrape_noPage_assemble cfg now oracle P k s hraw hret hk hpages hexh.1
    refine ⟨hasm.1, hasm.2.1, hasm.2.2.1, fun hfatal => ?_⟩
    obtain ⟨r, hor, hf⟩ := hfatal
    have h0 := hretry 0 (by omega)
    rw [Nat.add_zero, hor] at h0
    simp only [retryableOutcome] at h0
    rcases hf with ⟨h200, _⟩ | ⟨_, h429, h5⟩
    · rcases h0 with h | h <;> omega
    · rcases h0 with h | h
      · exact absurd h h429
      · exact absurd h h5

/-- Oracle of the `claim_C2` witness: page 1 carries one record, page 2
answers HTTP 404. -/
def c2oracle : Nat → NetOutcome := fun n =>
  if n = 0 then .ok ⟨200, .products [4]⟩ else .ok ⟨404, .noKey⟩

/-- Concrete instantiation of `claim_C2`: one good page, then a 404 — no
raise, the good page's record is returned, the 404 page consumed exactly
one request. -/
theorem claim_C2_witness :
    (scrape_all_products ⟨"https://shop.example/", 5, 3, 1, 1, 100⟩ 10 c2oracle
        (init_state [] true)).raised = false
    ∧ (scrape_all_products ⟨"https://shop.example/", 5, 3, 1, 1, 100⟩ 10 c2oracle
        (init_state [] true)).records = [4]
    ∧ (scrape_all_products ⟨"https://shop.example/", 5, 3, 1, 1, 100⟩ 10 c2oracle
        (init_state [] true)).fetches = 2
    ∧ (scrape_all_products ⟨"https://shop.example/", 5, 3, 1, 1, 100⟩ 10 c2oracle
        (init_state [] true)).nextIdx = 2 := by
  have h := claim_C2 ⟨"https://shop.example/", 5, 3, 1, 1, 100⟩ 10 c2oracle
    (fun n => if n = 0 then [4] else []) 1 (init_state [] true) rfl (by decide)
    (by decide)
    (fun i hi => match i, hi with
      | 0, _ => ⟨rfl, by decide⟩)
    (Or.inl ⟨⟨404, .noKey⟩, rfl, Or.inr ⟨by decide, by decide, by decide⟩⟩)
  refine ⟨h.1, ?_, h.2.2.1, ?_⟩
  · rw [h.2.1]
    decide
  · exact h.2.2.2 ⟨⟨404, .noKey⟩, rfl, Or.inr ⟨by decide, by decide, by decide⟩⟩

/-! ### Claim C6: placement of the politeness sleep -/

/-- C6 counterexample: with `max_pages = 1` and a non-empty page 1, the
terminal cause is the `max_pages` ceiling, yet one politeness sleep of the
configured delay (7) is performed — after the terminal page.  This refutes
the claim that no politeness sleep occurs after the terminal page for every
terminal cause. -/
theorem claim_C6_counterexample :
    (scrape_all_products ⟨"b/", 1, 1, 1, 7, 100⟩ 10
        (fun _ => .ok ⟨200, .products [1]⟩) (init_state [] true)).fetches = 1
    ∧ (scrape_all_products ⟨"b/", 1, 1, 1, 7, 100⟩ 10
        (fun _ => .ok ⟨200, .products [1]⟩) (init_state [] true)).politeness = [7] := by
  exact ⟨by decide, by decide⟩

/-- C6 (amended): a politeness sleep of exactly the configured delay is
performed after every successful non-empty page fetch — hence between any
two successive successful fetches — and no sleep follows the terminal
fetch when pagination stops on an empty page or a page failure; but when
pagination stops because the `max_pages` ceiling is reached, a final
politeness sleep does occur after the terminal page. -/
theorem claim_C6_amended (cfg : Cfg) (now : Int) (oracle : Nat → NetOutcome)
    (s : ScraperState) (hraw : s.rawProxies = []) (hret : 1 ≤ cfg.maxRetries) :
    (∀ (P : Nat → List Nat) (k : Nat), k + 1 ≤ cfg.maxPages →
      (∀ i, i < k → oracle i = .ok ⟨200, .products (P i)⟩ ∧ P i ≠ []) →
      oracle k = .ok ⟨200, .products []⟩ →
      (scrape_all_products cfg now oracle s).politeness = List.replicate k cfg.delay)
    ∧ (∀ (P : Nat → List Nat) (k : Nat) (r : HResp), k + 1 ≤ cfg.maxPages →
      (∀ i, i < k → oracle i = .ok ⟨200, .products (P i)⟩ ∧ P i ≠ []) →
      oracle k = .ok r → fatalResponse r →
      (scrape_all_products cfg now oracle s).politeness = List.replicate k cfg.delay)
    ∧ ((∀ i, ∃ l, oracle i = .ok ⟨200, .products l⟩ ∧ l ≠ []) →
      (scrape_all_products cfg now oracle s).politeness
        = List.replicate cfg.maxPages cfg.delay) := by
  refine ⟨?_, ?_, ?_⟩
  · intro P k hk hpages hempty
    have hshift := scrape_loop_shift cfg now oracle P k cfg.maxPages 1 0 s hraw hret
      (by omega) (by
        intro i hi
        rw [Nat.zero_add]
        exact hpages i hi)
    simp only [Nat.zero_add] at hshift
    obtain ⟨m, hm⟩ : ∃ m, cfg.maxPages - k = m + 1 := ⟨cfg.maxPages - k - 1, by omega⟩
    rw [hm] at hshift
    have hterm := scrape_loop_term_empty cfg now oracle m (1 + k) k s hraw hret hempty
    rw [hterm] at hshift
    unfold scrape_all_products
    rw [hshift.2.2.1, List.append_nil]
  · intro P k r hk hpages hor hf
    have hgp := get_page_fatal_noPage cfg now oracle (1 + k) s k hraw hret r hor hf
    have hasm := scrape_noPage_assemble cfg now oracle P k s hraw hret hk hpages
      (by rw [hgp])
    exact hasm.2.2.2.1
  · intro hall
    exact (scrape_all_nonempty cfg now oracle s hraw hret hall).2

/-- Concrete instantiation of `claim_C6_amended`: with one non-empty page
and an empty page 2, exactly one sleep (after the successful page, none
after the terminal empty fetch); with every page non-empty and
`max_pages = 2`, two sleeps — including one after the final page. -/
theorem claim_C6_amended_witness :
    (scrape_all_products ⟨"b/", 4, 1, 1, 7, 100⟩ 10
        (fun n => if n = 0 then .ok ⟨200, .products [5]⟩ else .ok ⟨200, .products []⟩)
        (init_state [] true)).politeness = [7]
    ∧ (scrape_all_products ⟨"b/", 2, 1, 1, 7, 100⟩ 10
        (fun _ => .ok ⟨200, .products [5]⟩) (init_state [] true)).politeness
      = [7, 7] := by
  constructor
  · have h := (claim_C6_amended ⟨"b/", 4, 1, 1, 7, 100⟩ 10
      (fun n => if n = 0 then .ok ⟨200, .products [5]⟩ else .ok ⟨200, .products []⟩)
      (init_state [] true) rfl (by decide)).1
      (fun n => if n = 0 then [5] else []) 1 (by decide)
      (fun i hi => match i, hi with
        | 0, _ => ⟨rfl, by decide⟩)
      rfl
    rw [h]
    decide
  · have h := (claim_C6_amended ⟨"b/", 2, 1, 1, 7, 100⟩ 10
      (fun _ => .ok ⟨200, .products [5]⟩) (init_state [] true) rfl (by decide)).2.2
      (fun i => ⟨[5], rfl, by decide⟩)
    rw [h]
    decide

/-! ### Claim C7: exponential backoff schedule -/

/-- C7: within one page fetch, the backoff sleeps form exactly the schedule
`backoff_factor * 2 ^ (k - 1)` for the successive retryable attempts
`k = 1, 2, ...` (the `j`-th recorded sleep, 0-indexed, follows attempt
`j + 1`), for every oracle behaviour and every pool state. -/
theorem claim_C7 (cfg : Cfg) (now : Int) (oracle : Nat → NetOutcome)
    (page : Nat) (s : ScraperState) (idx : Nat) :
    (get_page_with_retries cfg now oracle page s idx).backoffs
      = (List.range (get_page_with_retries cfg now oracle page s idx).backoffs.length).map
          (fun j => cfg.backoffFactor * 2 ^ (j + 1 - 1)) := by
  obtain ⟨m, hm⟩ := get_page_loop_backoffs cfg now oracle page cfg.maxRetries 0 s idx
  have hm2 : (get_page_with_retries cfg now oracle page s idx).backoffs
      = (List.range m).map (fun j => cfg.backoffFactor * 2 ^ (0 + j)) := hm
  rw [hm2, List.length_map, List.length_range]
  refine List.map_congr_left ?_
  intro j _
  rw [Nat.zero_add]
  rfl

/-! ### Claim C8: the max_pages ceiling bounds the number of fetches -/

/-- C8: if every page fetch returns a non-empty products array,
`scrape_all_products` issues exactly `max_pages` page fetches and
returns. -/
theorem claim_C8 (cfg : Cfg) (now : Int) (oracle : Nat → NetOutcome)
    (s : ScraperState) (hraw : s.rawProxies = []) (hret : 1 ≤ cfg.maxRetries)
    (hall : ∀ i, ∃ l, oracle i = .ok ⟨200, .products l⟩ ∧ l ≠ []) :
    (scrape_all_products cfg now oracle s).fetches = cfg.maxPages :=
  (scrape_all_nonempty cfg now oracle s hraw hret hall).1

/-- Concrete instantiation of `claim_C8`: `max_pages = 3` and every page
non-empty — exactly 3 fetches. -/
theorem claim_C8_witness :
    (scrape_all_products ⟨"b/", 3, 1, 1, 1, 100⟩ 10
        (fun _ => .ok ⟨200, .products [9]⟩) (init_state [] true)).fetches = 3 :=
  claim_C8 ⟨"b/", 3, 1, 1, 1, 100⟩ 10 (fun _ => .ok ⟨200, .products [9]⟩)
    (init_state [] true) rfl (by decide) (fun i => ⟨[9], rfl, by decide⟩)

/-! ### Claim C5: the page URL -/

/-- C5 counterexample: for the normalized base of `shop.example` and page
1, the only URL requested is
`https://shop.example/products.json?page=1` — it contains no second query
parameter at all (no ampersand), hence no `limit` parameter.  This refutes
the claim that the query string carries both the page number and a
configured page-size limit (no such limit exists in the configuration). -/
theorem claim_C5_counterexample :
    (get_page_with_retries ⟨normalize_shop_url "shop.example", 3, 1, 1, 1, 100⟩ 10
        (fun _ => .ok ⟨200, .products []⟩) 1 (init_state [] true) 0).urls
      = ["https://shop.example/products.json?page=1"]
    ∧ ¬ ('&' ∈ "https://shop.example/products.json?page=1".toList) := by
  exact ⟨by decide, by decide⟩

/-- C5 (amended): every URL requested on behalf of page `n` — across all
retries and proxy substitutions — is the configured base URL joined with
`products.json?page=<n>`; no limit parameter is sent (none is
configured). -/
theorem claim_C5_amended (cfg : Cfg) (now : Int) (oracle : Nat → NetOutcome)
    (page : Nat) (s : ScraperState) (idx : Nat) :
    ∀ u ∈ (get_page_with_retries cfg now oracle page s idx).urls,
      u = cfg.baseUrl ++ "products.json?page=" ++ toString page := by
  intro u hu
  exact get_page_loop_urls cfg now oracle page cfg.maxRetries 0 s idx u hu

/-- Concrete instantiation of `claim_C5_amended` on the counterexample run:
the single issued URL equals the base joined with `products.json?page=1`. -/
theorem claim_C5_amended_witness :
    ("https://shop.example/products.json?page=1"
        ∈ (get_page_with_retries ⟨normalize_shop_url "shop.example", 3, 1, 1, 1, 100⟩ 10
            (fun _ => .ok ⟨200, .products []⟩) 1 (init_state [] true) 0).urls)
    ∧ "https://shop.example/products.json?page=1"
        = (normalize_shop_url "shop.example") ++ "products.json?page=" ++ toString 1 := by
  refine ⟨by decide, ?_⟩
  exact claim_C5_amended ⟨normalize_shop_url "shop.example", 3, 1, 1, 1, 100⟩ 10
    (fun _ => .ok ⟨200, .products []⟩) 1 (init_state [] true) 0
    "https://shop.example/products.json?page=1" (by decide)
